import Mathlib

/-!
Verification of the WOOSAILibrary optimization pipeline.

This development shallowly embeds the core of the library:

* `src/woosailibrary/core/lightweight_input.py` — the four-stage input
  compressor (`LightweightInputCompressor`),
* `src/woosailibrary/core/number_compressor.py` — the numeric/unit
  compression stages (`NumberCompressor`),
* `src/woosailibrary/core/output_optimizer.py` — abbreviation detection,
  automatic strategy selection and parameter assembly (`OutputOptimizer`),
* `src/woosailibrary/core/cache_manager.py` — the LRU/TTL response cache
  (`CacheManager`).

Modelling conventions:

* Python strings are modelled as `List Char` (`Text`); Python `len`,
  `in`, `str.replace`, `str.strip`, `str.upper`, slicing and regular
  expression substitutions are embedded as executable functions below.
* The external `tiktoken` encoder is an uninterpreted parameter
  `tc : Text → Nat`; every theorem that involves token counts is proved
  for an arbitrary encoder, hence in particular for the library's own.
* Wall-clock timing fields (`time_ms`, `processing_time_ms`) and
  float-valued percentage/cost fields are outside the shallow embedding
  and are omitted from the embedded result records; no claim refers to
  them.  Where a Python float is produced by decimal formatting of an
  exact ratio (`f-string` `:.1f` / `:.0f`), it is modelled by exact
  integer arithmetic with round-half-to-even.
* `datetime` values are modelled as integers (chronological order is all
  the code uses); `timedelta(hours=h)` is modelled as the integer `h`.
-/

namespace Woosai

/-- Python strings are modelled as lists of unicode characters. -/
abbrev Text := List Char

/-- Characters stripped by Python `str.strip()` / matched by `\s`
(ASCII whitespace; the exotic unicode space code points are not used by
the repository). -/
def pyIsSpace (c : Char) : Bool :=
  c = ' ' || c = '\t' || c = '\n' || c = '\x0d' || c = '\x0b' || c = '\x0c'

/-- Python `str.strip()`: remove leading and trailing whitespace. -/
def pyStrip (t : Text) : Text :=
  ((t.dropWhile pyIsSpace).reverse.dropWhile pyIsSpace).reverse

/-- Python `str.upper()`, restricted to the ASCII range actually
exercised by the abbreviation whitelist (Korean characters are unaffected
by `upper`). -/
def pyUpper (t : Text) : Text := t.map Char.toUpper

/-- Python `str.replace(pat, rep)`, fuelled recursion: each step
consumes at least one character, so fuel equal to the text length always
suffices; the fuel makes the function structurally recursive, hence
kernel-computable.  The compressor only calls it with non-empty
patterns. -/
def replaceAllFuel (pat rep : Text) : Nat → Text → Text
  | 0, t => t
  | _ + 1, [] => []
  | fuel + 1, c :: rest =>
    if !pat.isEmpty && pat.isPrefixOf (c :: rest) then
      rep ++ replaceAllFuel pat rep fuel (rest.drop (pat.length - 1))
    else
      c :: replaceAllFuel pat rep fuel rest

/-- Python `str.replace(pat, rep)`: replace every non-overlapping
occurrence of `pat`, scanning left to right. -/
def replaceAll (pat rep : Text) (t : Text) : Text :=
  replaceAllFuel pat rep t.length t

/-- Digits of a natural number, for Python f-string interpolation of an
`int`. -/
def natDigits (n : Nat) : Text := Nat.toDigits 10 n

/-- Python `int(...)` on a digit string. -/
def natFromDigits (ds : Text) : Nat :=
  ds.foldl (fun n c => n * 10 + (c.toNat - '0'.toNat)) 0

/-- Python substring containment `pat in t`. -/
def containsSub (pat : Text) : Text → Bool
  | [] => pat.isEmpty
  | c :: rest => pat.isPrefixOf (c :: rest) || containsSub pat rest

/-- The static dictionary-substitution table of
`LightweightInputCompressor.__init__` (`self.learning_dict`), with Python
dict-literal semantics applied to the source literal: a duplicated key
keeps its first insertion position and its last assigned value.  Entries
are in iteration order. -/
def learning_dict : List (List Char × List Char) := [
  ("안녕하세요".data, "안녕".data),
  ("안녕하십니까".data, "안녕".data),
  ("감사합니다".data, "감사".data),
  ("감사드립니다".data, "감사".data),
  ("고맙습니다".data, "고마워".data),
  ("죄송합니다".data, "죄송".data),
  ("미안합니다".data, "죄송".data),
  ("실례합니다".data, "죄송".data),
  ("수고하셨습니다".data, "수고".data),
  ("수고하세요".data, "수고".data),
  ("어떻게 하나요".data, "어찌해".data),
  ("어떻게 해야".data, "어찌해야".data),
  ("무엇인가요".data, "뭐임".data),
  ("무엇입니까".data, "뭐임".data),
  ("왜 그런가요".data, "왜그래".data),
  ("왜 그럴까요".data, "왜그래".data),
  ("언제인가요".data, "언제임".data),
  ("어디인가요".data, "어디임".data),
  ("누구인가요".data, "누구임".data),
  ("~인 것 같아요".data, "~것같아".data),
  ("~인 것 같습니다".data, "~것같아".data),
  ("~하는 것".data, "~하기".data),
  ("~할 수 있나요".data, "~가능?".data),
  ("~할 수 있을까요".data, "~가능?".data),
  ("~할 수 있습니까".data, "~가능?".data),
  ("~해 주세요".data, "~해줘".data),
  ("~해 주시겠어요".data, "~해줘".data),
  ("~하고 싶어요".data, "~하고싶어".data),
  ("~하고 싶습니다".data, "~하고싶어".data),
  ("~라고 생각합니다".data, "~생각함".data),
  ("~라고 생각해요".data, "~생각함".data),
  ("~에 대해서".data, "~대해".data),
  ("~에 관해서".data, "~관해".data),
  ("~이라고 합니다".data, "~라함".data),
  ("~이라고 해요".data, "~라함".data),
  ("그렇지만".data, "근데".data),
  ("그러나".data, "근데".data),
  ("하지만".data, "근데".data),
  ("그러므로".data, "그래서".data),
  ("따라서".data, "그래서".data),
  ("그런데".data, "근데".data),
  ("또한".data, "또".data),
  ("게다가".data, "또".data),
  ("뿐만 아니라".data, "또".data),
  ("예를 들어".data, "예시".data),
  ("예를 들면".data, "예시".data),
  ("정말로".data, "진짜".data),
  ("진짜로".data, "진짜".data),
  ("아주".data, "매우".data),
  ("무척".data, "매우".data),
  ("굉장히".data, "매우".data),
  ("상당히".data, "꽤".data),
  ("대략".data, "약".data),
  ("인공지능".data, "AI".data),
  ("인공 지능".data, "AI".data),
  ("머신러닝".data, "ML".data),
  ("머신 러닝".data, "ML".data),
  ("기계학습".data, "ML".data),
  ("딥러닝".data, "DL".data),
  ("딥 러닝".data, "DL".data),
  ("심층학습".data, "DL".data),
  ("자연어처리".data, "NLP".data),
  ("자연어 처리".data, "NLP".data),
  ("컴퓨터 비전".data, "CV".data),
  ("강화학습".data, "RL".data),
  ("신경망".data, "NN".data),
  ("데이터베이스".data, "DB".data),
  ("데이터 베이스".data, "DB".data),
  ("프로그래밍".data, "코딩".data),
  ("프로그램".data, "프로그램".data),
  ("애플리케이션".data, "앱".data),
  ("어플리케이션".data, "앱".data),
  ("소프트웨어".data, "SW".data),
  ("하드웨어".data, "HW".data),
  ("운영체제".data, "OS".data),
  ("사용자 인터페이스".data, "UI".data),
  ("사용자경험".data, "UX".data),
  ("응용프로그램".data, "앱".data),
  ("웹사이트".data, "웹".data),
  ("웹 사이트".data, "웹".data),
  ("홈페이지".data, "웹".data),
  ("인터넷".data, "인터넷".data),
  ("네트워크".data, "네트워크".data),
  ("서버".data, "서버".data),
  ("클라이언트".data, "클라".data),
  ("빅 데이터".data, "빅데이터".data),
  ("블록체인".data, "블록체인".data),
  ("사물인터넷".data, "IoT".data),
  ("가상현실".data, "VR".data),
  ("증강현실".data, "AR".data),
  ("양자컴퓨팅".data, "양자컴".data),
  ("양자 컴퓨팅".data, "양자컴".data),
  ("알고리즘".data, "알고".data),
  ("데이터".data, "데이터".data),
  ("분석".data, "분석".data),
  ("개발".data, "dev".data),
  ("개발자".data, "dev".data),
  ("시스템".data, "sys".data),
  ("보안".data, "보안".data),
  ("정보".data, "정보".data),
  ("기술".data, "tech".data),
  ("서비스".data, "서비스".data),
  ("플랫폼".data, "플랫폼".data),
  ("모바일".data, "모바일".data),
  ("컴퓨터".data, "PC".data),
  ("스마트폰".data, "폰".data),
  ("비즈니스".data, "biz".data),
  ("사용자".data, "유저".data),
  ("프로젝트".data, "proj".data),
  ("미팅".data, "mtg".data),
  ("물리학".data, "물리".data),
  ("생물학".data, "생물".data),
  ("천문학".data, "천문".data),
  ("지질학".data, "지질".data),
  ("이번 달".data, "이달".data),
  ("나중에".data, "나중".data),
  ("이따가".data, "이따".data),
  ("퍼센트".data, "%".data),
  ("프로".data, "%".data),
  ("킬로그램".data, "kg".data),
  ("미터".data, "m".data),
  ("센티미터".data, "cm".data),
  ("밀리미터".data, "mm".data),
  ("킬로미터".data, "km".data),
  ("그램".data, "g".data),
  ("리터".data, "L".data),
  ("불가능".data, "불가".data),
  ("시작하다".data, "시작".data),
  ("진행하다".data, "진행".data),
  ("종료하다".data, "종료".data),
  ("완료하다".data, "완료".data),
  ("실행하다".data, "실행".data),
  ("작동하다".data, "작동".data),
  ("운영하다".data, "운영".data),
  ("관리하다".data, "관리".data),
  ("처리하다".data, "처리".data),
  ("해결하다".data, "해결".data),
  ("개선하다".data, "개선".data),
  ("변경하다".data, "변경".data),
  ("수정하다".data, "수정".data),
  ("추가하다".data, "추가".data),
  ("삭제하다".data, "삭제".data),
  ("저장하다".data, "저장".data),
  ("불러오다".data, "불러옴".data),
  ("확인하다".data, "확인".data),
  ("검토하다".data, "검토".data),
  ("검사하다".data, "검사".data),
  ("좋아요".data, "좋음".data),
  ("싫어요".data, "싫음".data),
  ("행복해요".data, "행복".data),
  ("슬퍼요".data, "슬픔".data),
  ("화나요".data, "화남".data),
  ("기뻐요".data, "기쁨".data),
  ("재미있어요".data, "재밌음".data),
  ("재미없어요".data, "재미없음".data),
  ("흥미로워요".data, "흥미".data),
  ("지루해요".data, "지루".data),
  ("피곤해요".data, "피곤".data),
  ("힘들어요".data, "힘듦".data),
  ("더 많이".data, "더많이".data),
  ("더 적게".data, "더적게".data),
  ("훨씬 더".data, "훨씬".data),
  ("보다 더".data, "더".data),
  ("알려주세요".data, "알려줘".data),
  ("설명해주세요".data, "설명".data),
  ("가르쳐주세요".data, "알려죠".data),
  ("보여주세요".data, "보여줘".data),
  ("도와주세요".data, "도와줘".data),
  ("해결해주세요".data, "해결해".data),
  ("만들어주세요".data, "만들어".data),
  ("찾아주세요".data, "찾아줘".data),
  ("검색해주세요".data, "검색".data),
  ("추천해주세요".data, "추천".data),
  ("~해야 합니다".data, "~해야함".data),
  ("~해야 해요".data, "~해야함".data),
  ("~하면 됩니다".data, "~하면됨".data),
  ("~하면 돼요".data, "~하면됨".data),
  ("~할 필요가 있다".data, "~필요".data),
  ("~할 수 있다".data, "~가능".data),
  ("~하지 않다".data, "~안함".data),
  ("~하지 못하다".data, "~못함".data),
  ("어떻게 하면 좋을까요".data, "어찌하면 좋을까".data),
  ("어떻게 하면 좋을지".data, "어찌하면 좋을지".data),
  ("어떻게 하면 될까요".data, "어찌하면 될까요".data),
  ("어떻게 해야 할까요".data, "어찌 할까요".data),
  ("어떻게 해야 할지".data, "어찌할지".data),
  ("어떻게 해야 되나요".data, "어찌해야 되나".data),
  ("무엇을 해야 할지".data, "뭘 할지".data),
  ("무엇을 하면 좋을지".data, "뭘 하면".data),
  ("무엇을 선택하면".data, "뭘 고르면".data),
  ("무엇부터 시작하면".data, "뭐부터 하면".data),
  ("알려주시면".data, "알려주면".data),
  ("알려주실 수 있나요".data, "알려줄 수 있나".data),
  ("알려주시겠어요".data, "알려줘".data),
  ("설명해주시면".data, "설명".data),
  ("설명해주실 수 있나요".data, "설명".data),
  ("설명해주시겠어요".data, "설명".data),
  ("가르쳐주시면".data, "알려주면".data),
  ("가르쳐주실 수 있나요".data, "알려죠".data),
  ("보여주시면".data, "보여주면".data),
  ("보여주실 수 있나요".data, "보여줘".data),
  ("도와주시면".data, "도와주면".data),
  ("도와주실 수 있나요".data, "도와줘".data),
  ("가능하다면".data, "가능하면".data),
  ("가능하시다면".data, "가능하면".data),
  ("가능하신 경우".data, "가능하면".data),
  ("가능한 경우".data, "가능하면".data),
  ("괜찮으시다면".data, "괜찮으면".data),
  ("괜찮으신 경우".data, "괜찮으면".data),
  ("괜찮다면".data, "괜찮으면".data),
  ("시간 있으시면".data, "시간 되면".data),
  ("시간 되시면".data, "시간 되면".data),
  ("시간이 괜찮으시면".data, "시간 되면".data),
  ("혹시 괜찮으시다면".data, "괜찮으면".data),
  ("혹시 가능하시다면".data, "가능하면".data),
  ("혹시 시간 되시면".data, "시간 되면".data),
  ("정말로 감사합니다".data, "감사".data),
  ("정말로 감사드립니다".data, "감사".data),
  ("진심으로 감사합니다".data, "감사".data),
  ("진심으로 감사드립니다".data, "감사".data),
  ("대단히 감사합니다".data, "감사".data),
  ("고맙네요".data, "고마워".data),
  ("감사하네요".data, "감사".data),
  ("정말 죄송합니다".data, "죄송".data),
  ("정말 미안합니다".data, "죄송".data),
  ("진심으로 죄송합니다".data, "죄송".data),
  ("대단히 죄송합니다".data, "죄송".data),
  ("내일 만나서".data, "내일 만나".data),
  ("다음에 만나서".data, "다음에 만나".data),
  ("나중에 만나서".data, "나중에 만나".data),
  ("언제든지 연락".data, "연락".data),
  ("언제든지 말씀".data, "말해".data),
  ("언제든지 물어".data, "물어".data),
  ("도움이 되었어요".data, "도움됐어".data),
  ("도움이 많이 되었어요".data, "많이 도움됐어".data),
  ("도움이 되셨나요".data, "도움됐나".data),
  ("이해가 되었어요".data, "이해됐어".data),
  ("이해가 잘 되었어요".data, "잘 이해됐어".data),
  ("이해가 되시나요".data, "이해되나".data),
  ("생각해보니".data, "생각하니".data),
  ("생각해보면".data, "생각하면".data),
  ("생각해보세요".data, "생각해봐".data),
  ("정말 정말".data, "진짜".data),
  ("너무 너무".data, "완전".data),
  ("아주 아주".data, "완전".data),
  ("확인해주세요".data, "확인".data),
  ("점검해주세요".data, "점검".data),
  ("검토해주세요".data, "검토".data),
  ("체크해주세요".data, "체크".data),
  ("어떤가요".data, "어때".data),
  ("어떨까요".data, "어때요".data),
  ("어떠세요".data, "어때요".data),
  ("어떠신가요".data, "어때요".data),
  ("괜찮나요".data, "괜찮아요".data),
  ("괜찮을까요".data, "괜찮아요".data),
  ("괜찮으신가요".data, "괜찮나요".data),
  ("알고 싶어요".data, "알려죠".data),
  ("알고 싶습니다".data, "알려죠".data),
  ("배우고 싶어요".data, "배우고 싶어".data),
  ("배우고 싶습니다".data, "배우고 싶어".data),
  ("해보고 싶어요".data, "해보고 싶어".data),
  ("해보고 싶습니다".data, "해보고 싶어".data),
  ("시도해보고 싶어요".data, "시도하고 싶어".data),
  ("그렇기 때문에".data, "그래서".data),
  ("이러한 이유로".data, "이래서".data),
  ("이런 이유로".data, "이래서".data),
  ("오늘 날씨가".data, "오늘날씨".data),
  ("오늘 하루".data, "오늘".data),
  ("오늘은 어때".data, "오늘어때".data),
  ("내일은 어때".data, "내일어때".data),
  ("어제는 어땠".data, "어제어땠".data),
  ("수고하셨".data, "수고".data),
  ("고생하셨".data, "수고".data),
  ("애쓰셨".data, "수고".data),
  ("힘드셨".data, "힘들었".data),
  ("괜찮으세요".data, "괜찮나요".data),
  ("괜찮으실까요".data, "괜찮을까요".data),
  ("어떻게 생각하세요".data, "어떻게 생각해요".data),
  ("어떻게 생각하시나요".data, "어떻게 생각해요".data),
  ("어떻게 보시나요".data, "어떻게 봐요".data),
  ("언제쯤 가능".data, "언제 가능".data),
  ("언제쯤 될까".data, "언제 될까".data),
  ("언제쯤 되나".data, "언제 되나".data),
  ("정말 좋네요".data, "좋네요".data),
  ("정말 좋아요".data, "좋아요".data),
  ("정말 괜찮네요".data, "괜찮네요".data),
  ("정말 재미있네요".data, "재밌네요".data),
  ("정말 좋습니다".data, "좋습니다".data),
  ("너무 좋아요".data, "좋아요".data),
  ("너무 좋네요".data, "좋네요".data),
  ("너무 재미있어요".data, "재밌어요".data),
  ("너무 감사해요".data, "감사해요".data),
  ("그렇게 하면".data, "그러면".data),
  ("그렇게 할게요".data, "그럴게요".data),
  ("그렇게 하겠습니다".data, "그러겠습니다".data),
  ("그렇게 하시면".data, "그러시면".data),
  ("알겠습니다".data, "알았어요".data),
  ("알았어요".data, "알았어".data),
  ("이해했어요".data, "이해했어".data),
  ("이해했습니다".data, "이해했어요".data),
  ("죄송하지만".data, "죄송한데".data),
  ("미안하지만".data, "미안한데".data),
  ("실례지만".data, "실례인데".data),
  ("부탁드립니다".data, "부탁해요".data),
  ("부탁드려요".data, "부탁해요".data),
  ("부탁할게요".data, "부탁해요".data),
  ("괜찮습니까".data, "괜찮나요".data),
  ("오랜만이에요".data, "오랜만".data),
  ("오랜만입니다".data, "오랜만".data),
  ("잘 지내셨어요".data, "잘지냈어요".data),
  ("요즘 어때요".data, "요즘어때".data),
  ("요즘 어떠세요".data, "요즘어때".data),
  ("요즘 바빠요".data, "요즘바빠".data),
  ("도움 주셔서".data, "도와줘서".data),
  ("도와주셔서".data, "도와줘서".data),
  ("도와줘서".data, "도와줘서".data),
  ("덕분에".data, "덕분에".data),
  ("덕분입니다".data, "덕분".data),
  ("맞습니까".data, "맞나요".data),
  ("어떠실까요".data, "어때요".data),
  ("하면 어때요".data, "하면어때".data),
  ("하면 어떨까요".data, "하면어때".data),
  ("해보면 어때요".data, "해보면어때".data),
  ("할 수 있을까".data, "할수있을까".data),
  ("될 수 있을까".data, "될수있을까".data),
  ("가능할까".data, "가능할까".data),
  ("되겠습니까".data, "되나요".data),
  ("해야 할까".data, "해야할까".data),
  ("해야 할지".data, "해야할지".data),
  ("할까요".data, "할까".data),
  ("해볼까요".data, "해볼까".data),
  ("해보세요".data, "해봐요".data),
  ("해보시면".data, "해보면".data),
  ("해보시죠".data, "해봐요".data),
  ("하시면".data, "하면".data),
  ("하시죠".data, "해요".data),
  ("하실까요".data, "할까요".data),
  ("어떻게 하면 좋을까".data, "어찌하면".data),
  ("뭘 하면 좋을까".data, "뭘하면".data),
  ("언제쯤 하면".data, "언제하면".data),
  ("정말 감사합니다".data, "감사".data),
  ("진짜 감사합니다".data, "감사".data),
  ("너무 감사합니다".data, "감사".data),
  ("매우 감사합니다".data, "감사".data),
  ("진짜 죄송합니다".data, "죄송".data),
  ("너무 죄송합니다".data, "죄송".data),
  ("매우 죄송합니다".data, "죄송".data),
  ("날씨가 좋네요".data, "날씨좋네요".data),
  ("날씨가 어때요".data, "날씨어때요".data),
  ("날씨 좋죠".data, "날씨좋죠".data),
  ("비가 오네요".data, "비오네요".data),
  ("눈이 오네요".data, "눈오네요".data),
  ("맛있어요".data, "맛있어".data),
  ("맛있네요".data, "맛있네".data),
  ("맛있습니까".data, "맛있나요".data),
  ("배고파요".data, "배고파".data),
  ("배불러요".data, "배불러".data),
  ("그렇습니다".data, "그래요".data),
  ("그렇네요".data, "그래요".data),
  ("그렇죠".data, "그래요".data),
  ("그렇구나".data, "그래".data),
  ("아니에요".data, "아니".data),
  ("아닙니다".data, "아니".data),
  ("자주 가요".data, "자주가요".data),
  ("자주 해요".data, "자주해요".data),
  ("항상 그래요".data, "항상그래요".data),
  ("가끔 가요".data, "가끔가요".data),
  ("정말 많이".data, "진짜많이".data),
  ("너무 많이".data, "너무많이".data),
  ("조금 많이".data, "좀많이".data),
  ("아주 좋아요".data, "좋아요".data),
  ("매우 좋아요".data, "좋아요".data),
  ("완전 좋아요".data, "좋아요".data),
  ("해야겠어요".data, "해야겠어".data),
  ("해야겠네요".data, "해야겠네".data),
  ("해야겠습니다".data, "해야겠어요".data),
  ("문제없어요".data, "문제없어".data),
  ("문제없습니다".data, "문제없어".data),
  ("괜찮아요".data, "괜찮아".data),
  ("괜찮습니다".data, "괜찮아".data),
  ("걱정마세요".data, "걱정마".data),
  ("걱정하지마세요".data, "걱정마".data),
  ("염려마세요".data, "걱정마".data),
  ("얼마예요".data, "얼마".data),
  ("얼마입니까".data, "얼마".data),
  ("가격이 어떻게".data, "가격은".data),
  ("포장해주세요".data, "포장".data),
  ("배달해주세요".data, "배달".data),
  ("지금 가능해요".data, "지금가능".data),
  ("지금 괜찮아요".data, "지금괜찮아".data),
  ("바로 할게요".data, "바로할게".data),
  ("잠깐만요".data, "잠깐".data),
  ("잠시만요".data, "잠깐".data),
  ("기다려주세요".data, "기다려".data),
  ("다 했어요".data, "다했어".data),
  ("다 됐어요".data, "다됐어".data),
  ("완료했어요".data, "완료했어".data),
  ("끝났어요".data, "끝났어".data),
  ("여기 있어요".data, "여기있어".data),
  ("저기 있어요".data, "저기있어".data),
  ("어디 있어요".data, "어디있어".data)]

/-- `LightweightInputCompressor._apply_learning_dict`: for each table
entry in order, if the key occurs in the current text, replace every
occurrence and count one replacement. -/
def applyLearningDict (t : Text) : Text × Nat :=
  learning_dict.foldl
    (fun acc kv =>
      if containsSub kv.1 acc.1 then (replaceAll kv.1 kv.2 acc.1, acc.2 + 1)
      else acc)
    (t, 0)

/-!
### Regular-expression substitution engine

The compression stages use `re.sub`/`re.finditer` with a fixed handful of
concrete patterns.  Each pattern is embedded as a matcher
`m : Text → Option (Nat × Text × Nat)` that, applied to a suffix of the
input, decides whether the pattern matches at that position and if so
returns `(consumed, replacement, countDelta)`; `regexSub` then performs
the standard leftmost, non-overlapping scan of `re.sub`, resuming after
each match.  All embedded patterns consume at least one character.
`countDelta` is `1` except where the Python replacement callback declines
to count (returning the match unchanged).
-/

def regexSubFuel (m : Text → Option (Nat × Text × Nat)) :
    Nat → Text → Text × Nat
  | 0, t => (t, 0)
  | _ + 1, [] => ([], 0)
  | fuel + 1, c :: rest =>
    match m (c :: rest) with
    | some (k, rep, d) =>
      let r := regexSubFuel m fuel (rest.drop (k - 1))
      (rep ++ r.1, r.2 + d)
    | none =>
      let r := regexSubFuel m fuel rest
      (c :: r.1, r.2)

/-- Leftmost, non-overlapping `re.sub` scan.  Each step consumes at
least one character, so fuel equal to the text length suffices; the fuel
makes the recursion structural, hence kernel-computable. -/
def regexSub (m : Text → Option (Nat × Text × Nat)) (t : Text) : Text × Nat :=
  regexSubFuel m t.length t

def regexSubCtxFuel (m : Option Char → Text → Option (Nat × Text × Nat)) :
    Nat → Option Char → Text → Text × Nat
  | 0, _, t => (t, 0)
  | _ + 1, _, [] => ([], 0)
  | fuel + 1, prev, c :: rest =>
    match m prev (c :: rest) with
    | some (k, rep, d) =>
      let lastConsumed := ((c :: rest).take (max k 1)).getLast?
      let r := regexSubCtxFuel m fuel lastConsumed (rest.drop (k - 1))
      (rep ++ r.1, r.2 + d)
    | none =>
      let r := regexSubCtxFuel m fuel (some c) rest
      (c :: r.1, r.2)

/-- Variant of `regexSub` whose matcher also sees the character just
before the current position of the original text, for patterns that
start with a `\b` word-boundary assertion. -/
def regexSubCtx (m : Option Char → Text → Option (Nat × Text × Nat))
    (prev : Option Char) (t : Text) : Text × Nat :=
  regexSubCtxFuel m t.length prev t

/-- Parse `\d+(?:\.\d+)?` at the head of the text: the greedy digit run,
optionally followed by a fraction.  Returns the matched number text and
the remaining text.  (For these patterns greedy matching without
backtracking coincides with the regex engine: shortening the digit run
only exposes another digit.) -/
def matchNumber (t : Text) : Option (Text × Text) :=
  let d := t.takeWhile Char.isDigit
  if d.isEmpty then none
  else
    let r1 := t.drop d.length
    match r1 with
    | '.' :: r2 =>
      let f := r2.takeWhile Char.isDigit
      if f.isEmpty then some (d, r1)
      else some (d ++ '.' :: f, r2.drop f.length)
    | _ => some (d, r1)

/-- Pattern `(\d+(?:\.\d+)?)<lit>` with replacement `num ++ sfx`, the
shape of the Korean-unit and percentage substitutions. -/
def matchNumThenLit (lit sfx : Text) (t : Text) : Option (Nat × Text × Nat) :=
  match matchNumber t with
  | some (num, rest) =>
    if lit.isPrefixOf rest then some (num.length + lit.length, num ++ sfx, 1)
    else none
  | none => none

/-- `NumberCompressor._compress_korean_units`: the three substitutions
`(\d+(?:\.\d+)?)조 → \1t`, `…억 → \1e`, `…만 → \1w`, applied in that
order, counts summed. -/
def compressKoreanUnits (t : Text) : Text × Nat :=
  let r1 := regexSub (matchNumThenLit ['조'] ['t']) t
  let r2 := regexSub (matchNumThenLit ['억'] ['e']) r1.1
  let r3 := regexSub (matchNumThenLit ['만'] ['w']) r2.1
  (r3.1, r1.2 + r2.2 + r3.2)

/-- Python `\w` for the character ranges appearing in this repository:
ASCII alphanumerics, underscore, Hangul syllables and Hangul jamo. -/
def isWordChar (c : Char) : Bool :=
  c.isAlphanum || c = '_' ||
  (0xAC00 ≤ c.toNat && c.toNat ≤ 0xD7A3) ||
  (0x1100 ≤ c.toNat && c.toNat ≤ 0x11FF) ||
  (0x3130 ≤ c.toNat && c.toNat ≤ 0x318F)

/-- Python `f"{num/unit:.1f}"` on the exact ratio `num / unit` (with
`unit` a power of ten): one fractional digit, round half to even. -/
def fmtOneDec (num unit : Nat) : Text :=
  let s0 := num * 10 / unit
  let r := num * 10 % unit
  let s := if 2 * r > unit then s0 + 1
           else if 2 * r < unit then s0
           else if s0 % 2 = 0 then s0 else s0 + 1
  natDigits (s / 10) ++ '.' :: natDigits (s % 10)

/-- Python `f"{num/unit:.0f}"` on the exact ratio: round half to even. -/
def fmtZeroDec (num unit : Nat) : Text :=
  let q := num / unit
  let r := num % unit
  if 2 * r > unit then natDigits (q + 1)
  else if 2 * r < unit then natDigits q
  else if q % 2 = 0 then natDigits q else natDigits (q + 1)

/-- The replacement callback `replace_large` of
`NumberCompressor._compress_large_numbers`, applied to a matched digit
run `d`.  Python compares `x == int(x)` on the float ratio; this is
modelled by exact divisibility. -/
def replaceLargeNumber (d : Text) : Text × Nat :=
  let num := natFromDigits d
  if num ≥ 1000000000000 then
    (if num % 1000000000000 = 0 then natDigits (num / 1000000000000) ++ ['t']
     else fmtOneDec num 1000000000000 ++ ['t'], 1)
  else if num ≥ 100000000 then
    (if num % 100000000 = 0 then natDigits (num / 100000000) ++ ['e']
     else fmtOneDec num 100000000 ++ ['e'], 1)
  else if num ≥ 10000 then
    (if num % 10000 = 0 then natDigits (num / 10000) ++ ['w']
     else fmtOneDec num 10000 ++ ['w'], 1)
  else if num ≥ 1000 then
    (natDigits (num / 1000) ++ ['k'], 1)
  else (d, 0)

/-- Pattern `\b\d{4,}\b` of `_compress_large_numbers`.  The leading
boundary is checked against the preceding original character; the
trailing boundary against the character after the digit run (shortening
the greedy run cannot help, since the next character would be a digit,
which is a word character). -/
def matchLargeNumber (prev : Option Char) (t : Text) : Option (Nat × Text × Nat) :=
  let leftOk := match prev with
    | none => true
    | some p => !isWordChar p
  if leftOk then
    let d := t.takeWhile Char.isDigit
    if d.length < 4 then none
    else
      let rightOk := match t.drop d.length with
        | [] => true
        | r :: _ => !isWordChar r
      if rightOk then
        let rd := replaceLargeNumber d
        some (d.length, rd.1, rd.2)
      else none
  else none

/-- `NumberCompressor._compress_large_numbers`. -/
def compressLargeNumbers (t : Text) : Text × Nat :=
  regexSubCtx matchLargeNumber none t

/-- First currency substitution `(\d+(?:\.\d+)?)(w|e|t)원`: drop the
redundant `원` after an already-compressed unit suffix. -/
def matchWetWon (t : Text) : Option (Nat × Text × Nat) :=
  match matchNumber t with
  | some (num, rest) =>
    match rest with
    | u :: '원' :: _ =>
      if u = 'w' || u = 'e' || u = 't' then some (num.length + 2, num ++ [u], 1)
      else none
    | _ => none
  | none => none

/-- Second currency substitution `(\d+)원` with callback `compress_won`.
The callback first tests `re.search(r'[wet]$', num_str)` on the digit
group (vacuously false on digits, embedded faithfully), then rescales by
powers of ten with `:.0f` formatting; numbers below 1000 are left
unchanged and uncounted. -/
def matchPlainWon (t : Text) : Option (Nat × Text × Nat) :=
  let d := t.takeWhile Char.isDigit
  if d.isEmpty then none
  else
    match t.drop d.length with
    | '원' :: _ =>
      let endsWet := match d.getLast? with
        | some c => c = 'w' || c = 'e' || c = 't'
        | none => false
      if endsWet then some (d.length + 1, d ++ ['원'], 0)
      else
        let num := natFromDigits d
        if num ≥ 1000000000000 then
          some (d.length + 1, fmtZeroDec num 1000000000000 ++ ['t'], 1)
        else if num ≥ 100000000 then
          some (d.length + 1, fmtZeroDec num 100000000 ++ ['e'], 1)
        else if num ≥ 10000 then
          some (d.length + 1, fmtZeroDec num 10000 ++ ['w'], 1)
        else if num ≥ 1000 then
          some (d.length + 1, fmtZeroDec num 1000 ++ ['k'], 1)
        else some (d.length + 1, d ++ ['원'], 0)
    | _ => none

/-- `NumberCompressor._compress_currency`: both substitutions in order. -/
def compressCurrency (t : Text) : Text × Nat :=
  let r1 := regexSub matchWetWon t
  let r2 := regexSub matchPlainWon r1.1
  (r2.1, r1.2 + r2.2)

/-- Apostrophe character used by the year compression. -/
def apos : Char := Char.ofNat 39

/-- Parse the alternation `(20\d{2}|19\d{2})` at the head of the text:
returns the two trailing year digits (Python `year[-2:]`) and the rest. -/
def matchYearGroup (t : Text) : Option (Text × Text) :=
  match t with
  | y1 :: y2 :: y3 :: y4 :: rest =>
    if ((y1 = '2' && y2 = '0') || (y1 = '1' && y2 = '9')) &&
        y3.isDigit && y4.isDigit then
      some ([y3, y4], rest)
    else none
  | _ => none

/-- Pattern `(20\d{2}|19\d{2})년\s*(\d{1,2})월` with replacement
`'{year[-2:]}.{month}` (`replace_year_month`).  The `\d{1,2}` group is
greedy: two digits are preferred when the following character is `월`. -/
def matchYearMonth (t : Text) : Option (Nat × Text × Nat) :=
  match matchYearGroup t with
  | some (yy, rest0) =>
    match rest0 with
    | '년' :: rest1 =>
      let ws := rest1.takeWhile pyIsSpace
      let rest2 := rest1.drop ws.length
      let d := rest2.takeWhile Char.isDigit
      if d.length ≥ 2 && (match rest2.drop 2 with
          | '월' :: _ => true
          | _ => false) then
        some (4 + 1 + ws.length + 2 + 1, apos :: yy ++ '.' :: d.take 2, 1)
      else if d.length ≥ 1 && (match rest2.drop 1 with
          | '월' :: _ => true
          | _ => false) then
        some (4 + 1 + ws.length + 1 + 1, apos :: yy ++ '.' :: d.take 1, 1)
      else none
    | _ => none
  | none => none

/-- Pattern `(20\d{2}|19\d{2})년(?:도)?` with replacement `'{year[-2:]}`
(`replace_year`). -/
def matchYearOnly (t : Text) : Option (Nat × Text × Nat) :=
  match matchYearGroup t with
  | some (yy, rest0) =>
    match rest0 with
    | '년' :: '도' :: _ => some (6, apos :: yy, 1)
    | '년' :: _ => some (5, apos :: yy, 1)
    | _ => none
  | none => none

/-- `NumberCompressor._compress_years`: year-month first, then plain
years. -/
def compressYears (t : Text) : Text × Nat :=
  let r1 := regexSub matchYearMonth t
  let r2 := regexSub matchYearOnly r1.1
  (r2.1, r1.2 + r2.2)

/-- Pattern `(\d+)개월 → \1mo`. -/
def matchMonthsUnit (t : Text) : Option (Nat × Text × Nat) :=
  let d := t.takeWhile Char.isDigit
  if d.isEmpty then none
  else
    match t.drop d.length with
    | '개' :: '월' :: _ => some (d.length + 2, d ++ 'm' :: ['o'], 1)
    | _ => none

/-- Pattern `(\d+)일(?!요) → \1d` (negative lookahead keeps weekday
names intact). -/
def matchDaysUnit (t : Text) : Option (Nat × Text × Nat) :=
  let d := t.takeWhile Char.isDigit
  if d.isEmpty then none
  else
    match t.drop d.length with
    | '일' :: rest2 =>
      match rest2 with
      | '요' :: _ => none
      | _ => some (d.length + 1, d ++ ['d'], 1)
    | _ => none

/-- Pattern `(\d+)년(?!도) → \1y`. -/
def matchYearsUnit (t : Text) : Option (Nat × Text × Nat) :=
  let d := t.takeWhile Char.isDigit
  if d.isEmpty then none
  else
    match t.drop d.length with
    | '년' :: rest2 =>
      match rest2 with
      | '도' :: _ => none
      | _ => some (d.length + 1, d ++ ['y'], 1)
    | _ => none

/-- `NumberCompressor._compress_time_units`. -/
def compressTimeUnits (t : Text) : Text × Nat :=
  let r1 := regexSub matchMonthsUnit t
  let r2 := regexSub matchDaysUnit r1.1
  let r3 := regexSub matchYearsUnit r2.1
  (r3.1, r1.2 + r2.2 + r3.2)

/-- `NumberCompressor._compress_percentages`: `(\d+(?:\.\d+)?)퍼센트`
and `(\d+(?:\.\d+)?)프로`, both to `\1%`. -/
def compressPercentages (t : Text) : Text × Nat :=
  let r1 := regexSub (matchNumThenLit ('퍼' :: '센' :: ['트']) ['%']) t
  let r2 := regexSub (matchNumThenLit ('프' :: ['로']) ['%']) r1.1
  (r2.1, r1.2 + r2.2)

/-- The summary record of `NumberCompressor.compress`
(`compression_ratio`, a float, is omitted; no claim refers to it). -/
structure NumberInfo where
  original_length : Nat
  compressed_length : Nat
  chars_saved : Int
  replacements : Nat
deriving DecidableEq, Repr

/-- `NumberCompressor._empty_info`. -/
def emptyNumberInfo : NumberInfo :=
  { original_length := 0, compressed_length := 0, chars_saved := 0,
    replacements := 0 }

/-- `NumberCompressor.compress`: the six numeric stages in their fixed
order. -/
def numberCompress (t : Text) : Text × NumberInfo :=
  if t = [] || pyStrip t = [] then (t, emptyNumberInfo)
  else
    let s1 := compressKoreanUnits t
    let s2 := compressLargeNumbers s1.1
    let s3 := compressCurrency s2.1
    let s4 := compressYears s3.1
    let s5 := compressTimeUnits s4.1
    let s6 := compressPercentages s5.1
    (s6.1,
      { original_length := t.length,
        compressed_length := s6.1.length,
        chars_saved := (t.length : Int) - (s6.1.length : Int),
        replacements := s1.2 + s2.2 + s3.2 + s4.2 + s5.2 + s6.2 })

/-- `LightweightInputCompressor._compress_numbers`: delegate to the
number compressor, keeping only the replacement count. -/
def compressNumbers (t : Text) : Text × Nat :=
  let r := numberCompress t
  (r.1, r.2.replacements)

/-!
### Pattern and punctuation compression stages
-/

/-- Run patterns `([ㅋㅎㅠㅜ])\1{3,}` and `([!?.])\1{3,}`: a character of
the class repeated four or more times, replaced by `{char}*{length}`. -/
def matchSameRun (cls : List Char) (t : Text) : Option (Nat × Text × Nat) :=
  match t with
  | [] => none
  | c :: _ =>
    if c ∈ cls then
      let run := t.takeWhile (· = c)
      if run.length ≥ 4 then some (run.length, c :: '*' :: natDigits run.length, 1)
      else none
    else none

/-- Pattern `([~\-=]){4,}`: four or more characters of the class (not
necessarily equal); the captured group is the last repetition, so the
replacement `{m.group(1)}*{len(m.group(0))}` uses the run's last
character. -/
def matchClassRun (cls : List Char) (t : Text) : Option (Nat × Text × Nat) :=
  let run := t.takeWhile (· ∈ cls)
  if run.length ≥ 4 then
    match run.getLast? with
    | some last => some (run.length, last :: '*' :: natDigits run.length, 1)
    | none => none
  else none

/-- `LightweightInputCompressor._compress_patterns`: the three pattern
substitutions applied in order.  The Python code collects `finditer`
matches and rewrites them right to left, which replaces exactly the
matches found on the text entering that pattern — the same result as the
left-to-right scan of `regexSub`. -/
def compressPatterns (t : Text) : Text × Nat :=
  let r1 := regexSub (matchSameRun ('ㅋ' :: 'ㅎ' :: 'ㅠ' :: ['ㅜ'])) t
  let r2 := regexSub (matchSameRun ('!' :: '?' :: ['.'])) r1.1
  let r3 := regexSub (matchClassRun ('~' :: '-' :: ['='])) r2.1
  (r3.1, r1.2 + r2.2 + r3.2)

/-- Patterns `\?{2,3}` (and the analogues for `!`, `~`, `-`, `=`): a run
of two or three identical marks collapses to a single mark.  Greedy:
three are consumed when available. -/
def matchShortRun (mark : Char) (t : Text) : Option (Nat × Text × Nat) :=
  let run := t.takeWhile (· = mark)
  if run.length ≥ 3 then some (3, [mark], 1)
  else if run.length = 2 then some (2, [mark], 1)
  else none

/-- `LightweightInputCompressor._compress_punctuation`: the five
punctuation substitutions applied in order; `re.findall` counts the
matches that `re.sub` replaces. -/
def compressPunctuation (t : Text) : Text × Nat :=
  let r1 := regexSub (matchShortRun '?') t
  let r2 := regexSub (matchShortRun '!') r1.1
  let r3 := regexSub (matchShortRun '~') r2.1
  let r4 := regexSub (matchShortRun '-') r3.1
  let r5 := regexSub (matchShortRun '=') r4.1
  (r5.1, r1.2 + r2.2 + r3.2 + r4.2 + r5.2)

/-!
### The four-stage compression pipeline (`LightweightInputCompressor.compress`)
-/

/-- Per-stage summary (`time_ms`, a wall-clock float, is omitted). -/
structure StageInfo where
  tokens_saved : Int
  replacements : Nat
deriving DecidableEq, Repr

/-- The `compression_info` dictionary returned by `compress`
(`savings_percent` and `processing_time_ms`, float/wall-clock fields, are
omitted; the `stages` sub-dictionary is flattened into four fields, empty
stages being all-zero). -/
structure CompressInfo where
  success : Bool
  original_text : Text
  compressed_text : Text
  original_length : Nat
  compressed_length : Nat
  original_tokens : Nat
  final_tokens : Nat
  tokens_saved : Int
  stage1_learning_dict : StageInfo
  stage2_numbers : StageInfo
  stage3_patterns : StageInfo
  stage4_punctuation : StageInfo
deriving DecidableEq, Repr

/-- `LightweightInputCompressor._empty_result`. -/
def emptyResult : CompressInfo :=
  { success := false, original_text := [], compressed_text := [],
    original_length := 0, compressed_length := 0,
    original_tokens := 0, final_tokens := 0, tokens_saved := 0,
    stage1_learning_dict := ⟨0, 0⟩, stage2_numbers := ⟨0, 0⟩,
    stage3_patterns := ⟨0, 0⟩, stage4_punctuation := ⟨0, 0⟩ }

/-- Current text, replacement count and token count after a stage. -/
structure StageAcc where
  text : Text
  repl : Nat
  tok : Nat
deriving DecidableEq, Repr

/-- The per-stage safety check of `compress`: count tokens of the stage
output; if the count exceeds the count before the stage, discard the
stage (keep the previous text and count, record zero replacements),
otherwise accept it.  All four inline safety checks of the source have
this shape. -/
def validateStage (tc : Text → Nat) (prev : StageAcc) (res : Text × Nat) :
    StageAcc :=
  if tc res.1 > prev.tok then { text := prev.text, repl := 0, tok := prev.tok }
  else { text := res.1, repl := res.2, tok := tc res.1 }

/-- The four validated stages of `compress`, in source order. -/
structure PipelineAccs where
  a1 : StageAcc
  a2 : StageAcc
  a3 : StageAcc
  a4 : StageAcc

/-- Stage 1 of `compress`: the learning dictionary, validated. -/
def stage1Acc (tc : Text → Nat) (t : Text) : StageAcc :=
  validateStage tc ⟨t, 0, tc t⟩ (applyLearningDict t)

/-- Stage 2 of `compress`: number compression, validated. -/
def stage2Acc (tc : Text → Nat) (t : Text) : StageAcc :=
  validateStage tc (stage1Acc tc t) (compressNumbers (stage1Acc tc t).text)

/-- Stage 3 of `compress`: pattern compression, validated. -/
def stage3Acc (tc : Text → Nat) (t : Text) : StageAcc :=
  validateStage tc (stage2Acc tc t) (compressPatterns (stage2Acc tc t).text)

/-- Stage 4 of `compress`: punctuation compression, validated. -/
def stage4Acc (tc : Text → Nat) (t : Text) : StageAcc :=
  validateStage tc (stage3Acc tc t) (compressPunctuation (stage3Acc tc t).text)

/-- Stage portion of `compress`: dictionary, numbers, patterns,
punctuation, each validated against the preceding token count. -/
def compressStages (tc : Text → Nat) (t : Text) : PipelineAccs :=
  ⟨stage1Acc tc t, stage2Acc tc t, stage3Acc tc t, stage4Acc tc t⟩

/-- `LightweightInputCompressor.compress`, parametrised by the tiktoken
encoder `tc`.  Empty/blank or shorter-than-15-character input
short-circuits to `(text, emptyResult)`; then the four validated stages
run; a final guard returns the original text if total savings are
negative. -/
def compress (tc : Text → Nat) (text : Text) : Text × CompressInfo :=
  if text = [] || pyStrip text = [] then (text, emptyResult)
  else if text.length < 15 then (text, emptyResult)
  else if (tc text : Int) - ((compressStages tc text).a4.tok : Int) < 0 then
    (text, emptyResult)
  else
    ((compressStages tc text).a4.text,
      { success := true,
        original_text := text,
        compressed_text := (compressStages tc text).a4.text,
        original_length := text.length,
        compressed_length := (compressStages tc text).a4.text.length,
        original_tokens := tc text,
        final_tokens := (compressStages tc text).a4.tok,
        tokens_saved := (tc text : Int) - ((compressStages tc text).a4.tok : Int),
        stage1_learning_dict :=
          ⟨(tc text : Int) - ((compressStages tc text).a1.tok : Int),
           (compressStages tc text).a1.repl⟩,
        stage2_numbers :=
          ⟨((compressStages tc text).a1.tok : Int) - ((compressStages tc text).a2.tok : Int),
           (compressStages tc text).a2.repl⟩,
        stage3_patterns :=
          ⟨((compressStages tc text).a2.tok : Int) - ((compressStages tc text).a3.tok : Int),
           (compressStages tc text).a3.repl⟩,
        stage4_punctuation :=
          ⟨((compressStages tc text).a3.tok : Int) - ((compressStages tc text).a4.tok : Int),
           (compressStages tc text).a4.repl⟩ })


/-!
### Output optimizer (`output_optimizer.py`)
-/

/-- `OutputOptimizer.GENERAL_PUBLIC_ABBREVIATIONS`, in source order. -/
def GENERAL_PUBLIC_ABBREVIATIONS : List Text := [
  "PC".data, "TV".data, "DVD".data, "CD".data, "USB".data, "WiFi".data,
  "GPS".data, "SMS".data, "MMS".data, "QR".data, "APP".data, "AI".data,
  "IT".data, "SNS".data, "LED".data, "LCD".data, "CCTV".data, "ATM".data,
  "MP3".data, "MP4".data, "HDMI".data, "OS".data, "3D".data, "VR".data,
  "5G".data, "UN".data, "WHO".data, "NASA".data, "FBI".data, "CIA".data,
  "EU".data, "NGO".data, "OECD".data, "IMF".data, "WTO".data, "G7".data,
  "G20".data, "NATO".data, "OPEC".data, "ASEAN".data, "UNESCO".data, "UNICEF".data,
  "USA".data, "UK".data, "UAE".data, "CEO".data, "GDP".data, "VIP".data,
  "PR".data, "VAT".data, "VISA".data, "CPI".data, "M&A".data, "KTX".data,
  "NBA".data, "MLB".data, "FIFA".data, "UEFA".data, "DJ".data, "MC".data,
  "VJ".data, "PD".data, "FAQ".data, "OK".data, "NO".data, "VS".data,
  "TIP".data, "DIY".data]

/-- The seven boundary patterns checked for an abbreviation by
`OutputOptimizer._detect_abbreviations`. -/
def abbrPatterns (a : Text) : List Text :=
  [' ' :: (a ++ [' ']), ' ' :: (a ++ ['?']), ' ' :: (a ++ ['.']),
   ' ' :: (a ++ [',']), ' ' :: (a ++ [':']), ' ' :: (a ++ [')']),
   '(' :: (a ++ [' '])]

/-- `OutputOptimizer._detect_abbreviations`: normalise the text (pad with
spaces, uppercase), then report whether any whitelisted abbreviation
occurs with one of the seven boundary patterns, or at the start or end of
the stripped text. -/
def detectAbbreviations (t : Text) : Bool :=
  GENERAL_PUBLIC_ABBREVIATIONS.any fun a =>
    (abbrPatterns a).any
      (fun p => containsSub p (' ' :: (pyUpper t ++ [' '])))
    || (a ++ [' ']).isPrefixOf (pyStrip (' ' :: (pyUpper t ++ [' '])))
    || (' ' :: a).isSuffixOf (pyStrip (' ' :: (pyUpper t ++ [' '])))

/-- The threshold logic of `OutputOptimizer.auto_select_strategy` as a
function of the input token count. -/
def selectFromCount (n : Nat) : String :=
  if n < 18 then "starter"
  else if n < 60 then "pro"
  else "premium"

/-- `OutputOptimizer.auto_select_strategy`, parametrised by the tiktoken
encoder (`is_paid_user` is read but ignored by the source). -/
def autoSelectStrategy (tc : Text → Nat) (userMessage : Text) : String :=
  selectFromCount (tc userMessage)

/-- The result record of `OutputOptimizer.get_optimized_params`,
restricted to the fields the claims refer to.  The system-prompt text,
sampling parameters, schema handling and float-valued cost estimate are
produced by external collaborators (`PromptOptimizer`,
`StructuredSchemaManager`) or by float arithmetic and are omitted. -/
structure OptimizedParams where
  user_message : Text
  strategy_used : String
  input_tokens : Nat
  uses_abbreviations : Bool
deriving DecidableEq, Repr

/-- Steps 1-5 of `OutputOptimizer.get_optimized_params`: optional input
compression (the processed message is taken from the compression info
field `compressed_text`), token counting, abbreviation detection,
strategy selection with fallback validation, and the per-strategy
abbreviation policy. -/
def getOptimizedParams (tc : Text → Nat) (user_message : Text)
    (strategy : String) (compress_input : Bool) : OptimizedParams :=
  let processed :=
    if compress_input then (compress tc user_message).2.compressed_text
    else user_message
  let input_tokens := tc processed
  let usesAbbr := detectAbbreviations user_message
  let selected :=
    if strategy = "auto" then autoSelectStrategy tc processed else strategy
  let selected :=
    if selected = "starter" || selected = "pro" || selected = "premium"
    then selected
    else autoSelectStrategy tc processed
  let useAbbr :=
    if selected = "starter" then false
    else if selected = "pro" then usesAbbr
    else true
  { user_message := processed, strategy_used := selected,
    input_tokens := input_tokens, uses_abbreviations := useAbbr }


/-!
### Response cache (`cache_manager.py`)

The cache file persistence (`_load_cache` / `_save_cache`) is external
I/O and is omitted: every mutating operation rewrites the same in-memory
state that it would persist.  The md5 key derivation over the normalised
request is an external hash; operations are modelled directly on the
derived key.  `cost_saved` bookkeeping is float arithmetic and is
omitted.  The `entries` `OrderedDict` is modelled as an association list
in insertion/recency order, least recently used first; Python dict keys
are unique, which appears below as a `Nodup` hypothesis where needed.
-/

/-- A stored cache entry (`self.cache["entries"][key]`), over an
arbitrary response payload type. -/
structure CacheEntry (α : Type) where
  response : α
  query : Text
  cached_at : Int
  expires_at : Int
  access_count : Nat
deriving DecidableEq, Repr

/-- Cache configuration (`ttl_hours`, `max_size`,
`auto_cleanup_interval`). -/
structure CacheConfig where
  ttlHours : Int
  maxSize : Nat
  interval : Nat
deriving DecidableEq, Repr

/-- The cache state: ordered entries plus the statistics counters and the
operation counter. -/
structure CacheState (α : Type) where
  entries : List (String × CacheEntry α)
  hits : Nat
  misses : Nat
  saves : Nat
  evictions : Nat
  opCount : Nat
deriving DecidableEq, Repr

/-- Lookup in the ordered entry list (`key in self.cache["entries"]`). -/
def lookupEntry (l : List (String × CacheEntry α)) (k : String) :
    Option (CacheEntry α) :=
  (l.find? (fun p => p.1 = k)).map (fun p => p.2)

/-- `CacheManager._cleanup_expired`: delete every entry whose expiry is
strictly in the past. -/
def cleanupExpired (now : Int) (l : List (String × CacheEntry α)) :
    List (String × CacheEntry α) :=
  l.filter (fun p => !(now > p.2.expires_at))

/-- `CacheManager._auto_cleanup`: every `auto_cleanup_interval`
operations, run the expiry sweep and reset the counter. -/
def autoCleanup (cfg : CacheConfig) (now : Int) (st : CacheState α) :
    CacheState α :=
  if st.opCount + 1 ≥ cfg.interval then
    { st with entries := cleanupExpired now st.entries, opCount := 0 }
  else { st with opCount := st.opCount + 1 }

/-- `OrderedDict.move_to_end`: move the entry for `k` to the
most-recently-used position, keeping its value. -/
def moveToEnd (l : List (String × CacheEntry α)) (k : String) :
    List (String × CacheEntry α) :=
  match l.find? (fun p => p.1 = k) with
  | some p => l.filter (fun q => q.1 ≠ k) ++ [p]
  | none => l

/-- `CacheManager.get`: auto-cleanup, then lookup; an expired entry is
deleted and counted as a miss, a live entry is promoted to
most-recently-used and counted as a hit. -/
def cacheGet (cfg : CacheConfig) (now : Int) (key : String)
    (st : CacheState α) : Option α × CacheState α :=
  match lookupEntry (autoCleanup cfg now st).entries key with
  | some e =>
    if now > e.expires_at then
      (none, { autoCleanup cfg now st with
               entries := (autoCleanup cfg now st).entries.filter
                 (fun q => q.1 ≠ key),
               misses := (autoCleanup cfg now st).misses + 1 })
    else
      (some e.response,
       { autoCleanup cfg now st with
         entries := moveToEnd (autoCleanup cfg now st).entries key,
         hits := (autoCleanup cfg now st).hits + 1 })
  | none => (none, { autoCleanup cfg now st with
                     misses := (autoCleanup cfg now st).misses + 1 })

/-- The `while` loop of `CacheManager._enforce_size_limit`: while the
store is over capacity, delete the first (least recently used) entry,
counting evictions. -/
def enforceSizeLimit (m : Nat) : List β → List β × Nat
  | [] => ([], 0)
  | x :: xs =>
    if xs.length + 1 > m then
      let r := enforceSizeLimit m xs
      (r.1, r.2 + 1)
    else (x :: xs, 0)

/-- The entry built by `CacheManager.set`: expiry `now` plus the TTL,
query truncated to 200 characters, fresh access count. -/
def newCacheEntry (cfg : CacheConfig) (now : Int) (query : Text)
    (resp : α) : CacheEntry α :=
  { response := resp, query := query.take 200, cached_at := now,
    expires_at := now + cfg.ttlHours, access_count := 0 }

/-- `self.cache["entries"][key] = {...}`: a Python dict assignment to an
existing key keeps its position and updates the value; a new key is
appended at the most-recently-used end. -/
def insertEntry (l : List (String × CacheEntry α)) (key : String)
    (e : CacheEntry α) : List (String × CacheEntry α) :=
  if (l.find? (fun p => p.1 = key)).isSome then
    l.map (fun p => if p.1 = key then (key, e) else p)
  else l ++ [(key, e)]

/-- `CacheManager.set`: auto-cleanup, build the entry, insert or
overwrite, then enforce the size bound by LRU eviction. -/
def cacheSet (cfg : CacheConfig) (now : Int) (key : String) (query : Text)
    (resp : α) (st : CacheState α) : CacheState α :=
  { autoCleanup cfg now st with
    entries := (enforceSizeLimit cfg.maxSize
      (insertEntry (autoCleanup cfg now st).entries key
        (newCacheEntry cfg now query resp))).1,
    saves := (autoCleanup cfg now st).saves + 1,
    evictions := (autoCleanup cfg now st).evictions +
      (enforceSizeLimit cfg.maxSize
        (insertEntry (autoCleanup cfg now st).entries key
          (newCacheEntry cfg now query resp))).2 }

/-- A cache operation, for stating state invariants. -/
inductive CacheOp (α : Type) where
  | get (now : Int) (key : String)
  | set (now : Int) (key : String) (query : Text) (resp : α)

/-- Apply one cache operation to a state. -/
def applyCacheOp (cfg : CacheConfig) (st : CacheState α) :
    CacheOp α → CacheState α
  | CacheOp.get now key => (cacheGet cfg now key st).2
  | CacheOp.set now key query resp => cacheSet cfg now key query resp st


/-!
### Specification-side predicates

These definitions follow the wording of the specification (not the
source); they are compared against the embedded source functions by the
theorems below.
-/

/-- The default in-memory cache state created by `_load_cache` when no
cache file exists: no entries, all counters zero. -/
def initialCacheState (α : Type) : CacheState α :=
  { entries := [], hits := 0, misses := 0, saves := 0, evictions := 0,
    opCount := 0 }

/-- Claim predicate (spec §4.2, dictionary substitution): no entry of the
static table has a replacement text that is itself the matching key of
another entry of the table. -/
def noRunawayChains : Prop :=
  ∀ p ∈ learning_dict, ∀ q ∈ learning_dict, q ≠ p → q.1 ≠ p.2

/-- The entries of `learning_dict` whose replacement text is the key of
another entry (the exceptions to `noRunawayChains` present in the
source table). -/
def chainingEntries : List (Text × Text) := [
  ("괜찮나요".data, "괜찮아요".data), ("괜찮을까요".data, "괜찮아요".data),
  ("괜찮으신가요".data, "괜찮나요".data), ("괜찮으세요".data, "괜찮나요".data),
  ("괜찮으실까요".data, "괜찮을까요".data), ("정말 좋아요".data, "좋아요".data),
  ("너무 좋아요".data, "좋아요".data), ("알겠습니다".data, "알았어요".data),
  ("이해했습니다".data, "이해했어요".data), ("괜찮습니까".data, "괜찮나요".data),
  ("도움 주셔서".data, "도와줘서".data), ("도와주셔서".data, "도와줘서".data),
  ("하실까요".data, "할까요".data), ("아주 좋아요".data, "좋아요".data),
  ("매우 좋아요".data, "좋아요".data), ("완전 좋아요".data, "좋아요".data),
  ("해야겠습니다".data, "해야겠어요".data)]

/-- An injective numeric code for texts: the characters (shifted by one
so that no digit is zero) as digits in base 2^33, which exceeds every
`Char.toNat` value.  Comparisons of codes are single bignum comparisons,
which keeps the chain-freeness certificates below cheap to check. -/
def encodeText (t : Text) : Nat :=
  t.foldl (fun n c => n * 8589934592 + (c.toNat + 1)) 0

/-- The `encodeText` codes of the `learning_dict` entries, key and
replacement, in order (equality with the mapped table is proved
below). -/
def dictCodes : List (Nat × Nat) := [
  (274975375090246354534094355242757001809282709, 433834646614358),
  (2362020486435882282614313145491727172200361439254326861, 433834646614358),
  (239825567719270126965730994601889113233732325, 378378028892333),
  (2060085940197797008609883002871613059118087132208476901, 378378028892333),
  (240958027435275717372484454870714982259012325, 3265590210289200382658253),
  (279831885033586307436720978550110584460849893, 441496868274594),
  (261995644489651023591431432372166730637685477, 441496868274594),
  (271643330154479029706364342600375722022318821, 441496868274594),
  (19961786122366055645475822488592419416742115584492054649407320805, 426825259986145),
  (270532648507003387287686331494573966861846165, 426825259986145),
  (20332988810695905573847686208548077913581436403304390994971117205, 3734580231659358557099381),
  (2367071436100628410215453036193279306588396251823261053, 32079799918530097630159180033738109),
  (260928518987067456382861436451844556494784149, 411913133541253),
  (260928518987067456382862395682551301517913677, 411913133541253),
  (2374928468649798263975605156588663719823812320714344085, 3746976443610748879419289),
  (2374928468649798263975605156588664014971722550948710037, 3746976443610748879419289),
  (275585161095464511585324034019492442805421717, 3734875379555879255852933),
  (275563383020893574661506411222570840631592597, 3734580231608849741694853),
  (248123012951146799379596218065806282918512277, 3362693871066028909315973),
  (438260913535773608024984948361637798305797722409740201490178244884874901, 80495816373220588458730542122309),
  (3764632581502462745054467008210966249441690849882240954513483723512917316878775013, 80495816373220588458730542122309),
  (691453804200983377463499008345474242489476, 9370946458600909876785),
  (438260914965948467415486293624065021725243398825181387188305368985945749, 80495816363554494578503467401280),
  (3764632593787571242341670550103225173774899791188077758483798166522061197087393429, 80495816363554494578503467401280),
  (3764632593787571242341670550103225173774899791188077758483712057120734982145355341, 80495816363554494578503467401280),
  (5939542951628468505915608774156988038473199449589397, 9370946458841428052249),
  (438260914973983157636781245011378961742523237891363288446407957700200085, 9370946458841428052249),
  (51020285459553659124676913709953350379530962535277218347665045, 691453804200983377355770023383459218638261),
  (438260914962734593395238661900927339131429343816777203583283377781912293, 691453804200983377355770023383459218638261),
  (3764632567381489737287280514382931321657865169487188823460168398193335382384358117, 80495816757650734954631439373673),
  (438260911891875990816308245340237780667127246210257152963915049313814165, 80495816757650734954631439373673),
  (5939542929828618951492607050424084085421547186077981, 9370946383078204953973),
  (5939542929828618951492607050310747289832675700949277, 9370946369884065420661),
  (438260913534166672176018337488604831750825829768106269138290638602679013, 9370946392939449865577),
  (51020285293246464824306119406666237831910353825440057645909653, 9370946392939449865577),
  (28228677394658578454875414443637197, 382604276708209),
  (3286250563647666271596697, 382604276708209),
  (4030023284738839854234061, 382604276708209),
  (28228677394656586206484667486484573, 3286250563646944717095197),
  (3422608895839565204472093, 3286250563646944717095197),
  (3286250563647700631335793, 382604276708209),
  (400368261453149, 46609),
  (3259392104265281328688129, 46609),
  (2296545213095256102070074123209855178881802512961156989, 46609),
  (276020722522750270891164411103144645054481845, 435483914060509),
  (276020722522750270891164411103144645054478965, 435483914060509),
  (3779516500182817210153053, 443695891532253),
  (3811318687001179928442973, 443695891532253),
  (433800286882045, 408786397349553),
  (411672615373978, 408786397349553),
  (3273337842830644072208265, 408786397349553),
  (3641092132638659759363977, 44901),
  (393633752725430, 50558),
  (32366288953594406930541082228863654, 566935683146),
  (278024305097148078826570794946448802944430758, 566935683146),
  (30216353536021348589553806307537630, 670014898253),
  (259556500483171300296426825837771674953495262, 670014898253),
  (28264171611252241025484807099957942, 670014898253),
  (3421797239101284056871646, 592705486925),
  (29393014467494390103126243954176734, 592705486925),
  (31628516304889652161117167292564150, 592705486925),
  (278154973530099031994502639567987480392153517, 5829171127953643274321),
  (2389333029063042028115292977456501288156345819616819629, 5829171127953643274321),
  (2477818184214467606877536897422677848449419817911371781, 584115552343),
  (27922539775275826629558524102886070, 712964571213),
  (3681158460753047369857502, 678604832847),
  (2148384023128232522344269313562640795514999135757451941, 592705486915),
  (18454478237169332595504451909505237054582178274595449386125279909, 592705486915),
  (296905893074707248341543441568092749314440206, 455927958385962),
  (34564395094605540896479906696837033, 34564395094605540896479906696837033),
  (2363142919743131642943133802960603109135107183641411929, 50546),
  (2367071436144277109987265307790944477891942330316931417, 50546),
  (269770416011613673913451430190759242807428533, 721554505816),
  (34617636419749013400637431340910005, 627065225304),
  (32242059195245162541203401885141021, 687194767444),
  (1462129869392943570725577002888170788759451101672844844242096243818704113606158500517, 738734374986),
  (268550844006239722482268588468117991508202969, 738734375001),
  (2386386641763190163640764921865524269003553435881093033, 50546),
  (32285793140852317232901039121814201, 50938),
  (277332851299521131468901320445056747269313209, 50938),
  (34769754492356956858306025324857793, 50938),
  (3767931944955929780334904, 3767931944955929780334904),
  (28743343538855426000899211419242605, 28743343538855426000899211419242605),
  (424660596472965, 424660596472965),
  (290546696201546773469595721444818819882209977, 458401859549053),
  (265202465483523517123108952163642162223829297, 30873630371948079403946799907524913),
  (30842572932335533160729466529433465, 30842572932335533160729466529433465),
  (268550844004385783479433032081078139633054008, 5460236246780099952725),
  (27909229443565904750767886183744229, 747324309587),
  (32714259043340527618588855895114469, 566935683155),
  (275372824898417110442248288053021114015732486, 3731997687479177974959861),
  (2365434554291672022998993205808871800863023608562242310, 3731997687479177974959861),
  (32013882086729409630387450964658585, 433869006351585),
  (3389552330494593340592433, 3389552330494593340592433),
  (416757856649502, 416757856649502),
  (378481108106269, 7452484606654832181367),
  (3251127962940531695208337, 7452484606654832181367),
  (3680863312896031780295005, 8559289251249203970164),
  (415520906069321, 415520906069321),
  (439993629719797, 439993629719797),
  (383050953310753, 74157560120877691570489628033129),
  (3647806747506323537052325, 3647806747506323537052325),
  (4024415474500669343323133, 4024415474500669343323133),
  (3525910662662440456603517, 3525910662662440456603517),
  (3909307791545017401659697, 695784702020),
  (31582880882895603803611795969594353, 54257),
  (30872996547065304427124198517818021, 7304910654099515506811),
  (3639542606179761427367825, 437889095747585),
  (34564395094605540896537399129068217, 71622258921380463459432197521515),
  (413356242555654, 8116567393437225058408),
  (3536831135148785111455066, 411741334845869),
  (3643158167993082940806490, 424119430593341),
  (3865035605711627067905370, 449949363911481),
  (3811023539095828776932698, 443661531793865),
  (32363753652688139145782230687724269, 438610650247917),
  (3335835411755498769270225, 388342353021202),
  (3767636796989177776352257, 438610650248497),
  (3994900684003770810553017, 38),
  (468434903152733, 38),
  (33859581360878645349247739714647977, 927712936040),
  (413356242555185, 110),
  (31354703775329710638631119663190321, 858993459310),
  (30505377872699542776953314996179249, 944892805230),
  (33859581360878645349278526040232241, 927712936046),
  (382569916970921, 104),
  (408305361015089, 77),
  (3580217877180085205775014, 416792216382465),
  (31618375099962388466203960125993701, 428508887173010),
  (32738978230828005484357387185861349, 443695891535242),
  (32536787959548752110217538339648229, 440955702393037),
  (32171070761382907927885739464897253, 435999310133453),
  (31623445702627163611040288365130469, 428577606653322),
  (32382134586227420024269380541002469, 438859758351322),
  (32242059195245162541222402820453093, 436961382811138),
  (28071488720261342326135445056959205, 380439613192621),
  (33197867747584302025788112819499749, 449915004172717),
  (34635383527997846257881332056109797, 469396975824049),
  (27926976551976109725135372189479653, 378481108107553),
  (30627072330077144121040589417394917, 415074229464254),
  (31494145341149761865728201855120101, 426825259993110),
  (33357591722954804513344763700753125, 452079667686401),
  (31264066757208854738190614090789605, 423707113736221),
  (32452489194914039151914687599260389, 439813241096102),
  (30753837390311219174288949497606885, 3580217877206301686154805),
  (34777994221029405575027121910231781, 471329711114105),
  (27990359082299197383079603933852389, 379340101570977),
  (27990359081978961905960006117798629, 379340101566637),
  (3788223363410793806743189, 441007242004301),
  (3681970117547188862109333, 428637736191821),
  (34648693859607565422865289087862421, 469577364454646),
  (3677321538070919344342677, 428096570316053),
  (4048617602709819903493781, 471321121173673),
  (3290382634335329855784597, 383050953310313),
  (278307420028862090260277542980697950896834197, 3771768867676772641064781),
  (278307420028862090260244338841365273703925397, 32399247869483904244872315186235213),
  (300221604458570527307032279083377077302380181, 473666173320185),
  (32736442929086764276289765082449557, 443661531789545),
  (34599889311195292757406996471269013, 468915939486949),
  (34982719792615333764076194869855893, 474104259982567),
  (29098285702941326767282400807405429, 3387486295128324639344501),
  (29098285702941326767313625219640461, 3387486295159549051579533),
  (34871166540102793693506891740656469, 472592431498541),
  (30660031245799292572675000886145877, 45909),
  (274997153162834052093621451148040143733048981, 3726906386080921076943129),
  (2312446350910423561660830659331562204212390505031452309, 424729315949190),
  (2059337651349422117294531024490165003732980166215911061, 3726906386080921076943073),
  (263367662993180194825099757228692217792611989, 3569297404745451957176601),
  (250562156961264679893255629636682777993725589, 3395750436500714050079001),
  (2555640223343006769469651125909570746924483420394407573, 4032089320011186210657653),
  (2224522412400750891847412238971678942327525401700648597, 3509677527861770571531701),
  (284677505939130562510610957374773547197580949, 3858099629962005588265241),
  (2065323962066148855692264963063555386909937082583533205, 379340101566666),
  (2461355829760008160450141555956141053431358457366234773, 452079667694749),
  (51020285460863164626025865310294449107101408439010080826897125, 80495817146581887060755768989033),
  (5939542951628468537938998233328392858046831108605589, 80495817146581887060755768989033),
  (51020285459553659143602057828628263963230425848979687588541157, 80495817144515851700242323911721),
  (5939542951476022035768495154174541118930455464298133, 80495817144515851700242323911721),
  (3764632593787571242341670550332762775204145365809830206016613308890230431110181605, 9370946458429111191189),
  (51020285459927803303055266573101401064224005540039086154232549, 9370946367685042156198),
  (5939542951476022038250555029421414287099053750661861, 9370946423279098844521),
  (51020285459553659164922789810426584330115734946428478250070757, 9370946400077685511529),
  (110703320945288965249948069349015701829315389366410449223190516194292337899568839190438674701464369153685, 174659043946040808143761198702480057828257113272551502306017084130432429645),
  (12887562735156268492567826685148256578170157662407780208530663069604469684368097129096122780097, 174659043946040808143761198702480057828257113272551502306017084130432436673),
  (12887562735156268492567826685148256578170157662407780208530663069604469298683571981069955679893, 174659043946040808143761198702480057828257113272551116621491936104265336469),
  (12887562735156268492567826685148256578170158971913262632338144735789613169666162011463194035861, 2367071436131732940782985130518530608423288782616315541),
  (1500309763378029280873926669027220525100147231937533085273828443115299238085998463425, 32079799918530097630159008235047361),
  (12887562735156268492567826685148256578170158971913262632338144735789612541001123984492556502677, 20332988810963091457234987547616763230848449684876757550407659673),
  (1420629984609509548948551296330235994357186029386773141101635515850774392517177690561, 30398895218775490133278646054472129),
  (12203118647229653686667478008633536823452307768103088728197954239197187778973025655623474268609, 30398895218775490133278577334991477),
  (165383096855309506523021414914428721456457592560417913181534614580671593077, 261124521598342990576839908747973737465297525),
  (1420629984609509548947546960055077151598833364642935266674497855562036446289803131509, 2242668416741851099868792610208798125355211162841561717),
  (274997153162834052093621451148043751505574517, 32013882086942211270055436895697525),
  (12861081267482209765550671815620826681205978883462786077338818930470227590864536240332531091093, 174300153133960459758281037812984166749169200905543105927143938827697041561),
  (20291208421574027715050692631494769610337742982300633325291751061, 3726906386080921076943129),
  (2312446350910423561660830659331562204212394112803977845, 424729315949190),
  (108148612099054583085964665878814656125715474926333572319765394065863133537305612829756481843645856663189, 424729315949190),
  (170628424077712536140753088442808381082467408701240930686288396859700463253, 424729315949190),
  (2059337651349422117294531024490165003732983773988436597, 32013882086942211270055436895697525),
  (96311211176459408698502699670003585070692255547770785535939386568662927999324620346405075680751115093653, 3726906386080921076943073),
  (263367662993180194825099757228695825565137525, 30660031246158782721625147064760949),
  (12317192661905481690169285210403838471593563462714003243929466687434996611060984225252205708949, 3569297404745451957176601),
  (250562156961264679893255629636686385766251125, 29169274140296583051473790504581749),
  (11718304084865632773893321425477869762706058579746694703992691330013913004817069397574064064149, 3395750436500714050079001),
  (239738455431062300066373330433402478235007605, 27909229443299386192389453113244277),
  (2059337651339932322647224167076431941208495600047274613, 27909229443299386192389453113244277),
  (17689575727852919809246295885548232775018390308401496891997603505, 27909229443299386192389453113244277),
  (2059337651339932322647226702373953969325034790038062769, 27909229443299386192389453113244277),
  (2072619778255586381686564673622706615932529169781537397, 28089235829014140231410315480316533),
  (17803668329301030877293537191596880052163914322831085027897427633, 28089235829014140231410315480316533),
  (28089235829014140231365579100961397, 28089235829014140231410315480316533),
  (20040526086524457197153385511117776199679087916532478045333797493, 271599774009528008739054780715209043778517621),
  (2333024293943827179860484962248548665664349384648735349, 271599774009528008739054780715209043778517621),
  (1478729823282466814585759672935660239429034558027687647766929930908085711949367655029, 271599774009528008739054780715209043778517621),
  (1625669058208087874346223764229723488620065834669173476944748183916237292725409462901, 28089235829014140231410315480316533),
  (1625669058208087874346223764229710206493150180610134136438201909241513259155675200117, 27909229443299386192389453113244277),
  (1625669058208087874346223764229983893135754075467347397233374025965969112940276660853, 271599774009528008739054780715209043778517621),
  (1518362213262089987472655994614409461272395214656201646039194412306776861103584490213, 378378028892333),
  (13042632098885707945608214382254481533035831989070571906639410588420867355715663152527756538597, 378378028892333),
  (13152377412179855334457031688919081910873861447170925358312795316681507688063539907752334766821, 378378028892333),
  (112978061699923181463008186042286204795096843393668712272021075246978072254744721228071072827132384162533, 378378028892333),
  (1358380157418857193989839750465090331186719423076897181324863724856588828265488102117, 378378028892333),
  (28051206310661011069565154011170453, 3265590210289200382658253),
  (239825567719270126965729740223288493211698837, 378378028892333),
  (176760625706763238116832052839099650873884752244720507990499693240562791141, 441496868274594),
  (176760625706763238116832052839081814633340816960875218444321749386739626725, 441496868274594),
  (13152377412179855334457031688919081910873861447170965364630109632861978678047488129223561884389, 441496868274594),
  (1358380157418857193989839750465090331186759429394211497505334714840537049736715219685, 441496868274594),
  (2115646386452063853085550323370958527269518004191281437, 246293654950808716598612992485398255203561625),
  (18398235405618397213748845244498415282018285356067543367567851805, 2141836495792772296554041705617962321501491283540095129),
  (18162015513133511570978925585626544994782576754634405218921529629, 2114336880987220393840564133788755279358310712808091801),
  (20334595748960208250651376626138288444150047368426079871771391870, 435277755627390),
  (20334595748960208250651376626138288444150047368426053208614421761, 408614598661493),
  (20334595748960208250651376626138288444150047368426056335350613429, 411741334848949),
  (158812634333264921690640894344708420632852620609620374507807582534961776277, 29169274140306027784393522105337269),
  (100659465618194795212044888039956195044904615270262022493920505439330458766439056974143824636872975500949, 19109305490204871132496410865721671147978858213426494485376845237),
  (158812634333264921690640894344708420632852620609620291866394085896164001429, 29169274140306027784393522105331865),
  (176205035128689271134295503094702340359230113324324580457978211031769466517, 32363753653158900054938985192015285),
  (13001636750071728687912615196151820327853176787915184410017738792709112875971792478980871866005, 2389707173206488354288615893875592792419156883557893557),
  (176205035128689271134295503094702340359230113324324525265319896072784496277, 32363753653158900054939053911486617),
  (268817625377580514389907541930177847929909961, 31294490371083434949385174072210121),
  (268817625377580514389907541930177847929911925, 31294490371083434949385174072212085),
  (2309125819170175921823020570107725144645280913837573781, 31294490371083434949385414590381329),
  (278879094404939395309466343440476561913985489, 443695891532253),
  (246750994449957711149948991338614458427685685, 435999310137349),
  (274953597022601226660596075466844088108632317, 435999310137349),
  (2566163035169116885002476922393206325602841380427712149, 471329711114105),
  (2395319339734094706096584433759985493101798646173714069, 439950680042625),
  (2065323962089620172233003614519405113832150726736922261, 379340101570977),
  (2450879786028934097774294918120674794616119225288279701, 450155522347117),
  (32079799918106855534040831695570581, 434762359551309),
  (32079799918107150681951061929936533, 3734580231609330778031765),
  (32079799918106560386182312867448469, 3734580231609330778031765),
  (275563383020982310203435613796552880125167253, 3734580231609330778031765),
  (28089235829014140231360528219424405, 28089235829014140231405986153285269),
  (241284698510494360430930944185787708755461781, 28089235829014140231405986153285269),
  (2072619778255586381686564673622706911080419196489746069, 28089235829014140231360528219424405),
  (2362207558639248443262737844379899316850783277457393301, 3726906386080921076943073),
  (20291208421439148651664741154066409931293655182715534847716143845, 3726906386080921076943073),
  (19354363541945200611487999019986961897422246620879106267565573781, 2253144460491044518012553339356901345008780087912351157),
  (166252716895098721701000315374648103391653311879044487783194668175047308005, 2253144460491044518012553339356901345008780087912351157),
  (21952782359395441900472036200993387182400521588706439597540820629, 2555640223365677741876807552877975066937566919800178101),
  (188572964579618282587990964891589361321351653993672185437463591578421474021, 2555640223365677741876807552877975066937566919800178101),
  (1478729823289313346963215728702712340184053065746262391686262645444368800103855605397, 20040526086617245013401433439040566599921796937563677046429762997),
  (17892049921493998960109750757096481160636468166054616699234207185, 3286250563646944717095197),
  (20512965871679149362158634654791320116240828871264426023989590109, 3767636796994469176066333),
  (2388023523576480387019809296921537025344676141767637085, 3767636796994469176066333),
  (2372309457964450418396117776511453995820397648647597057, 32150788351662082539024843756586281),
  (276173169022012783493394704595225350162659561, 435724432224921),
  (2372309457964450418428427655006737116068840853016196429, 32150788351662082539071195043640653),
  (2115646386452063853117860201866068395697666145866790221, 28672355105030433810589036176258381),
  (2367071436126244866798239909986178340133780583039939937, 32079799918455720358019348505343329),
  (31494145340635835575834653747102057, 426825259986145),
  (28051206310793532479070294943777129, 426825259986145),
  (3728382125634958466793833, 426825259986145),
  (4072524583038727690961257, 4072524583038796410439113),
  (241284698510494360430930353890018959692973717, 28089235829014140231360528219424405),
  (2072619778255586381686564673622707206228329426724112021, 241284698510494360430930944185787708755461781),
  (1500309763378029280873926669027220525100118533883832306565145179172527924109211911829, 174659043943745698881559850301968460564981044023743866310122560388241344149),
  (12887562735156268492567826685148256578169912457509055239691089276076135582382200182766275970709, 174659043943745698881559850301968460564981044023743866310122560388241344149),
  (174659043943745698881559850301968460564980409564618883808905331332010264213, 2367071436100628410215453036193279306588342616271668885),
  (2367258508335823222375877169589505487621089339021243046, 275585161095464511581558537045214259453145766),
  (2367258508335823222375877169589505487621107206085193293, 275585161095464511581558537045232126517096013),
  (2367258508335823222375877169589505487621107137365717145, 275585161095464511581558537045232057797619865),
  (2395553180014622567432347488579110619013357401800754837, 3788223363366538463725205),
  (2395553180014622567432347488579110619013401657143772821, 3788223363410793806743189),
  (20577645127983209457810974311905575879775180981694057121256097429, 28089235829014140231361730810267285),
  (176760625706763238116832052839098126408880028027544064554930235389583083157, 32399247869485379984352839915849365),
  (20577645127983209457810974311910027234857703475819901419683623653, 32540590911536634357206029237793509),
  (2119574902836091755944090939735516845609663954920982165, 3788223363410793806743189),
  (2119574902836091755944090939735516845609619699577964181, 3788223363366538463725205),
  (156397023110700697147944855801972997437641394476779815090369921447020775061, 32399247869485379984398057331541653),
  (18207009778206783480470168381223282262837956952104027074953528981, 27919370648366181059476431256471189),
  (2082908749754307670531266375862850394817371810442558069, 3286250563647666271599221),
  (17892049921493998960107464059590772454162600227341976164410377877, 28228677394657176502261594166707861),
  (1320200263423339494231117064723052684925840607705970687888450118704774901991938765541, 2082908749754160668548769206956312049931075025444582117),
  (17892049921493998960107464059590772454162599637046214871411112565, 28228677394656586206500301167442549),
  (274997153160965535108766465339296449812280037, 32013882087191611249924774488491669),
  (32013882087191611249924774488491669, 3726906386109955055863221),
  (278002527032236005655223296163162032567273109, 32363753653158900055012583751599541),
  (2388023523617619164085710217196149825039788171417662181, 278002527032236005655223296163162032567273109),
  (279831885033586307436719724171564081026742733, 32576718953622773689767348035171185),
  (261995644489651023591430177993620227203578317, 30500307270517924752951421907809137),
  (31623445702073982649732391405402573, 31623445702073982649727374883599217),
  (2268858526109656908743259032320728068050643219732542181, 30748766788379370065022921706882709),
  (264129895496840694540094005912623588132832917, 30748766788379370065022921706882709),
  (264129895496840694540708208703276326437570197, 30748766788379370065022921706882709),
  (241284698510494360430844834784461493813423693, 28089235829014140231360528219424405),
  (2372309457971441179372268520470300874800915020750309013, 3742844372959437898430925),
  (2372309457971441179372268520470302129179470182838481637, 3742844372959437898430925),
  (20527428311876949873352134595104984632748232971061966650696844949, 278198529673683525610342124420618831809005205),
  (2377547479864701695677847553718264903703828602374112917, 32221776785709321101979017782801741),
  (20422977341412224575464199589787101918545072432478402852071458453, 32221776785709321101979017782801741),
  (2377547479864701695677847553718083092594258084041377429, 32221776785709321101957852183969377),
  (2152312539528397976137746185556333688611362411275927837, 29169274140296583051474031022752029),
  (250562156961264679893255629636683018511892765, 29169274140296583051474031022752029),
  (29169274140296583051474031022752029, 29169274140296583051474031022752029),
  (3387560082112779915412945, 3387560082112779915412945),
  (249957815476195859811061845746868330740888293, 394363897167237),
  (30159309259007905426494472266493517, 3511005693425628731197077),
  (275563383020982310203435908944463110359533205, 3734580231609330778031765),
  (2554330717895144761396796351333481858106921665370834581, 34617636419854676350688993952707917),
  (21941533793055697414769927216298861140757088836404946205323347605, 34617636419854676350688993952707917),
  (21952782359395441900490961345112062095984552429330687717084808853, 297515679076974948621239830928959869185733965),
  (21944747666913379296369473905494597979092361840935534936755056205, 297406788720394362408128764797405088356281933),
  (18525183508730247990016178572992603960925113870165751783233728077, 251063052604697911192124850262057712101666381),
  (27909229443299386192389521832717901, 27909229443299386192389521832717901),
  (251019496458248527219283237001224334560243277, 3401948542461857862043285),
  (297515679078359223073169418666164949455253069, 34635383528466245983401033710218829),
  (297515679078359223073169418666164949455260097, 34635383528466245983401033710225857),
  (4030613580488828499576469, 469225177132621),
  (34635383528305685522897532067301013, 4032089320047023417765453),
  (34635383528305095227128783004812949, 4032089320047195216463509),
  (34635383528305095227132390777338485, 4032089320046954698291829),
  (34635383528305095227132390777342177, 4032089320047195216463509),
  (4030023284723687209613941, 469156457658997),
  (4030023284723687209617633, 469396975830677),
  (34617636420014056219434373590599317, 4030613580488828499576469),
  (12887562735156268492567826685148256578170157662407780208530663069604469684368097129096122773069, 32079799918530097630158939515566709),
  (165507328269224372145998630343002574811162429649936298462012347716156304973, 3538897170545891677878901),
  (2367258508335823222375877169589505487621180254888966773, 32082335219656176816856736009861749),
  (176760625706763238116832052839059644556570436064249518006551471769335673573, 378378028892333),
  (178247952046146929984478225740361938610408024040542538783803923981418935013, 378378028892333),
  (156397023110700697147944855801934515585331802513485268541991112609357673189, 378378028892333),
  (164223603469142295945426226802280004586282114600780306095975767813092586213, 378378028892333),
  (178247952046146929984478225740401944927722340221013528767752145452646052581, 441496868274594),
  (156397023110700697147944855801974521902646118693956258525939334080584790757, 441496868274594),
  (164223603469142295945426226802320010903596430781251296079923989284319703781, 441496868274594),
  (18165229389175214731047048653445509905561276058277320200734951061, 246184764593016256415222488642114300384691861),
  (18165229389175214731047048653445509905561222415145562993049257621, 246184764593016256415168845510357092698998421),
  (246184764593016256411436700249406498823784673, 28659678598984174478708590455605473),
  (2278025064327768863171160954562448742924224886596486805, 30872996547001257331696671182079637),
  (2131547524266180520692640534227821541418716175251064469, 28887855707043850088952833962460821),
  (30157407783198689998157962039838357, 3510784332547184312501685),
  (30157407783198689998112744624146069, 3510784332547184312496421),
  (259050160321948463624204899795368710189919821, 30157407783198689998111542033303189),
  (30535801486863294148298095242299029, 3554835157336585008108301),
  (30535801487177921815159636848854677, 3554835157373212489201645),
  (242482492438786159098947195661460571999482597, 3286250563646944717096597),
  (28228677394658578454821297855710869, 3286250563646944717096597),
  (3286250563647898199836897, 3286250563646944717096597),
  (28228677394658578454813120237973657, 382569916970905),
  (32008811484440062620965957036721813, 433800286876361),
  (32008811484441316999521119124894437, 433800286876361),
  (278154973530593415724859503773506603745068693, 32381500761326567238209085856859797),
  (278154973530593415724859503773597760130958997, 32381500761326567238300242242750101),
  (2555312847004213135483324807405681642496767139980035733, 297477567452496515530107143400486327503865493),
  (239738455430686441659378072101766104428365461, 27909229443255630515355698189092501),
  (278879094404939395309466343440445165703055221, 32738978230607456212151556747872117),
  (246750994449957711149948991338633751420782453, 28725596430008033191954761448998773),
  (279374545529264664607124846931408791785228149, 3787411706646347718379381),
  (2361833414259270482713486871992148488788139785244952213, 3788223363410793806743189),
  (2225644845683026248675602515476050943577803291826898581, 3788223363410793806743189),
  (2373806035670934998987469174318737608842871928373954197, 3788223363410793806743189),
  (297515679078359223076427851539310541835126421, 34635383528466245983311423512561077),
  (297515679078359223076427851539265324419434133, 34635383528466245983311423512555813),
  (2555640223377568568906452261729707476528953929748230885, 297515679078359223076427851539310541835126421),
  (260950297058928790148659195355411517555132053, 30378612812949436501210927422555573),
  (2241545983499168276962676444602278534431182414499853029, 30378612812949436501210927422555573),
  (28089235829014140231405986153285269, 3270017428907349266974021),
  (241284698510494360430844834784461493813424869, 3270017428907349266974021),
  (240353685953933790054820732296641198252148373, 3257399855951921092278729),
  (17734971727859899356071860161541244466653653091038460245186758293, 3257399855951921092278729),
  (275955388308083414806447135130828492716951189, 3257399855951921092278729),
  (32084870520585982646576590331365013, 434831079029193),
  (275606939164622580446168076502729867315424845, 434831079029193),
  (17689575727781271152958424995306281620803337930721949443860507789, 3249061927570303034115905),
  (2537307146841900541089646444749749663380105521411442325, 466029721470886),
  (2253144460463495257593218338576286086623554759427147413, 413837278884589),
  (20749185764066804223702998662821140950633597490448364857657968277, 32736442928881341334193779129758374),
  (20749185764066804223702998662821320957019312244487381150179837589, 281203903533831629789971531279242999877387589),
  (2251834955004025537419956511134830596546156176605234837, 30518054378677032646989085325438093),
  (32391641965624575599310243857745557, 438988607368785),
  (32391641966012695094621092823746197, 438988607368785),
  (2085527760681245107562552027306341391001088271180678805, 3290382634309113375406117),
  (249342584926072417218652001189559808999605909, 3379222153844274115954101),
  (249342584926072417218019794376665635246622357, 3379222153770675556369845),
  (276347393594882818567300296627924004629431957, 32171070761382907927886151781762485),
  (28617212303489589890062074461079189, 3331481980100459173561781),
  (2369690447024212024208507675903072118563239798683780757, 32115294134772460406572729946391989),
  (2394571050898133315488007206495234120689862394295404181, 32452489194433169427370852999022005),
  (2367071436099719175703063239875634824312170593566901909, 32079799918096230209514916852843957)]

/-- The codes of the `learning_dict` keys, in order. -/
def keyCodes : List Nat := [
  274975375090246354534094355242757001809282709, 2362020486435882282614313145491727172200361439254326861,
  239825567719270126965730994601889113233732325, 2060085940197797008609883002871613059118087132208476901,
  240958027435275717372484454870714982259012325, 279831885033586307436720978550110584460849893,
  261995644489651023591431432372166730637685477, 271643330154479029706364342600375722022318821,
  19961786122366055645475822488592419416742115584492054649407320805, 270532648507003387287686331494573966861846165,
  20332988810695905573847686208548077913581436403304390994971117205, 2367071436100628410215453036193279306588396251823261053,
  260928518987067456382861436451844556494784149, 260928518987067456382862395682551301517913677,
  2374928468649798263975605156588663719823812320714344085, 2374928468649798263975605156588664014971722550948710037,
  275585161095464511585324034019492442805421717, 275563383020893574661506411222570840631592597,
  248123012951146799379596218065806282918512277, 438260913535773608024984948361637798305797722409740201490178244884874901,
  3764632581502462745054467008210966249441690849882240954513483723512917316878775013, 691453804200983377463499008345474242489476,
  438260914965948467415486293624065021725243398825181387188305368985945749, 3764632593787571242341670550103225173774899791188077758483798166522061197087393429,
  3764632593787571242341670550103225173774899791188077758483712057120734982145355341, 5939542951628468505915608774156988038473199449589397,
  438260914973983157636781245011378961742523237891363288446407957700200085, 51020285459553659124676913709953350379530962535277218347665045,
  438260914962734593395238661900927339131429343816777203583283377781912293, 3764632567381489737287280514382931321657865169487188823460168398193335382384358117,
  438260911891875990816308245340237780667127246210257152963915049313814165, 5939542929828618951492607050424084085421547186077981,
  5939542929828618951492607050310747289832675700949277, 438260913534166672176018337488604831750825829768106269138290638602679013,
  51020285293246464824306119406666237831910353825440057645909653, 28228677394658578454875414443637197,
  3286250563647666271596697, 4030023284738839854234061,
  28228677394656586206484667486484573, 3422608895839565204472093,
  3286250563647700631335793, 400368261453149,
  3259392104265281328688129, 2296545213095256102070074123209855178881802512961156989,
  276020722522750270891164411103144645054481845, 276020722522750270891164411103144645054478965,
  3779516500182817210153053, 3811318687001179928442973,
  433800286882045, 411672615373978,
  3273337842830644072208265, 3641092132638659759363977,
  393633752725430, 32366288953594406930541082228863654,
  278024305097148078826570794946448802944430758, 30216353536021348589553806307537630,
  259556500483171300296426825837771674953495262, 28264171611252241025484807099957942,
  3421797239101284056871646, 29393014467494390103126243954176734,
  31628516304889652161117167292564150, 278154973530099031994502639567987480392153517,
  2389333029063042028115292977456501288156345819616819629, 2477818184214467606877536897422677848449419817911371781,
  27922539775275826629558524102886070, 3681158460753047369857502,
  2148384023128232522344269313562640795514999135757451941, 18454478237169332595504451909505237054582178274595449386125279909,
  296905893074707248341543441568092749314440206, 34564395094605540896479906696837033,
  2363142919743131642943133802960603109135107183641411929, 2367071436144277109987265307790944477891942330316931417,
  269770416011613673913451430190759242807428533, 34617636419749013400637431340910005,
  32242059195245162541203401885141021, 1462129869392943570725577002888170788759451101672844844242096243818704113606158500517,
  268550844006239722482268588468117991508202969, 2386386641763190163640764921865524269003553435881093033,
  32285793140852317232901039121814201, 277332851299521131468901320445056747269313209,
  34769754492356956858306025324857793, 3767931944955929780334904,
  28743343538855426000899211419242605, 424660596472965,
  290546696201546773469595721444818819882209977, 265202465483523517123108952163642162223829297,
  30842572932335533160729466529433465, 268550844004385783479433032081078139633054008,
  27909229443565904750767886183744229, 32714259043340527618588855895114469,
  275372824898417110442248288053021114015732486, 2365434554291672022998993205808871800863023608562242310,
  32013882086729409630387450964658585, 3389552330494593340592433,
  416757856649502, 378481108106269,
  3251127962940531695208337, 3680863312896031780295005,
  415520906069321, 439993629719797,
  383050953310753, 3647806747506323537052325,
  4024415474500669343323133, 3525910662662440456603517,
  3909307791545017401659697, 31582880882895603803611795969594353,
  30872996547065304427124198517818021, 3639542606179761427367825,
  34564395094605540896537399129068217, 413356242555654,
  3536831135148785111455066, 3643158167993082940806490,
  3865035605711627067905370, 3811023539095828776932698,
  32363753652688139145782230687724269, 3335835411755498769270225,
  3767636796989177776352257, 3994900684003770810553017,
  468434903152733, 33859581360878645349247739714647977,
  413356242555185, 31354703775329710638631119663190321,
  30505377872699542776953314996179249, 33859581360878645349278526040232241,
  382569916970921, 408305361015089,
  3580217877180085205775014, 31618375099962388466203960125993701,
  32738978230828005484357387185861349, 32536787959548752110217538339648229,
  32171070761382907927885739464897253, 31623445702627163611040288365130469,
  32382134586227420024269380541002469, 32242059195245162541222402820453093,
  28071488720261342326135445056959205, 33197867747584302025788112819499749,
  34635383527997846257881332056109797, 27926976551976109725135372189479653,
  30627072330077144121040589417394917, 31494145341149761865728201855120101,
  33357591722954804513344763700753125, 31264066757208854738190614090789605,
  32452489194914039151914687599260389, 30753837390311219174288949497606885,
  34777994221029405575027121910231781, 27990359082299197383079603933852389,
  27990359081978961905960006117798629, 3788223363410793806743189,
  3681970117547188862109333, 34648693859607565422865289087862421,
  3677321538070919344342677, 4048617602709819903493781,
  3290382634335329855784597, 278307420028862090260277542980697950896834197,
  278307420028862090260244338841365273703925397, 300221604458570527307032279083377077302380181,
  32736442929086764276289765082449557, 34599889311195292757406996471269013,
  34982719792615333764076194869855893, 29098285702941326767282400807405429,
  29098285702941326767313625219640461, 34871166540102793693506891740656469,
  30660031245799292572675000886145877, 274997153162834052093621451148040143733048981,
  2312446350910423561660830659331562204212390505031452309, 2059337651349422117294531024490165003732980166215911061,
  263367662993180194825099757228692217792611989, 250562156961264679893255629636682777993725589,
  2555640223343006769469651125909570746924483420394407573, 2224522412400750891847412238971678942327525401700648597,
  284677505939130562510610957374773547197580949, 2065323962066148855692264963063555386909937082583533205,
  2461355829760008160450141555956141053431358457366234773, 51020285460863164626025865310294449107101408439010080826897125,
  5939542951628468537938998233328392858046831108605589, 51020285459553659143602057828628263963230425848979687588541157,
  5939542951476022035768495154174541118930455464298133, 3764632593787571242341670550332762775204145365809830206016613308890230431110181605,
  51020285459927803303055266573101401064224005540039086154232549, 5939542951476022038250555029421414287099053750661861,
  51020285459553659164922789810426584330115734946428478250070757, 110703320945288965249948069349015701829315389366410449223190516194292337899568839190438674701464369153685,
  12887562735156268492567826685148256578170157662407780208530663069604469684368097129096122780097, 12887562735156268492567826685148256578170157662407780208530663069604469298683571981069955679893,
  12887562735156268492567826685148256578170158971913262632338144735789613169666162011463194035861, 1500309763378029280873926669027220525100147231937533085273828443115299238085998463425,
  12887562735156268492567826685148256578170158971913262632338144735789612541001123984492556502677, 1420629984609509548948551296330235994357186029386773141101635515850774392517177690561,
  12203118647229653686667478008633536823452307768103088728197954239197187778973025655623474268609, 165383096855309506523021414914428721456457592560417913181534614580671593077,
  1420629984609509548947546960055077151598833364642935266674497855562036446289803131509, 274997153162834052093621451148043751505574517,
  12861081267482209765550671815620826681205978883462786077338818930470227590864536240332531091093, 20291208421574027715050692631494769610337742982300633325291751061,
  2312446350910423561660830659331562204212394112803977845, 108148612099054583085964665878814656125715474926333572319765394065863133537305612829756481843645856663189,
  170628424077712536140753088442808381082467408701240930686288396859700463253, 2059337651349422117294531024490165003732983773988436597,
  96311211176459408698502699670003585070692255547770785535939386568662927999324620346405075680751115093653, 263367662993180194825099757228695825565137525,
  12317192661905481690169285210403838471593563462714003243929466687434996611060984225252205708949, 250562156961264679893255629636686385766251125,
  11718304084865632773893321425477869762706058579746694703992691330013913004817069397574064064149, 239738455431062300066373330433402478235007605,
  2059337651339932322647224167076431941208495600047274613, 17689575727852919809246295885548232775018390308401496891997603505,
  2059337651339932322647226702373953969325034790038062769, 2072619778255586381686564673622706615932529169781537397,
  17803668329301030877293537191596880052163914322831085027897427633, 28089235829014140231365579100961397,
  20040526086524457197153385511117776199679087916532478045333797493, 2333024293943827179860484962248548665664349384648735349,
  1478729823282466814585759672935660239429034558027687647766929930908085711949367655029, 1625669058208087874346223764229723488620065834669173476944748183916237292725409462901,
  1625669058208087874346223764229710206493150180610134136438201909241513259155675200117, 1625669058208087874346223764229983893135754075467347397233374025965969112940276660853,
  1518362213262089987472655994614409461272395214656201646039194412306776861103584490213, 13042632098885707945608214382254481533035831989070571906639410588420867355715663152527756538597,
  13152377412179855334457031688919081910873861447170925358312795316681507688063539907752334766821, 112978061699923181463008186042286204795096843393668712272021075246978072254744721228071072827132384162533,
  1358380157418857193989839750465090331186719423076897181324863724856588828265488102117, 28051206310661011069565154011170453,
  239825567719270126965729740223288493211698837, 176760625706763238116832052839099650873884752244720507990499693240562791141,
  176760625706763238116832052839081814633340816960875218444321749386739626725, 13152377412179855334457031688919081910873861447170965364630109632861978678047488129223561884389,
  1358380157418857193989839750465090331186759429394211497505334714840537049736715219685, 2115646386452063853085550323370958527269518004191281437,
  18398235405618397213748845244498415282018285356067543367567851805, 18162015513133511570978925585626544994782576754634405218921529629,
  20334595748960208250651376626138288444150047368426079871771391870, 20334595748960208250651376626138288444150047368426053208614421761,
  20334595748960208250651376626138288444150047368426056335350613429, 158812634333264921690640894344708420632852620609620374507807582534961776277,
  100659465618194795212044888039956195044904615270262022493920505439330458766439056974143824636872975500949, 158812634333264921690640894344708420632852620609620291866394085896164001429,
  176205035128689271134295503094702340359230113324324580457978211031769466517, 13001636750071728687912615196151820327853176787915184410017738792709112875971792478980871866005,
  176205035128689271134295503094702340359230113324324525265319896072784496277, 268817625377580514389907541930177847929909961,
  268817625377580514389907541930177847929911925, 2309125819170175921823020570107725144645280913837573781,
  278879094404939395309466343440476561913985489, 246750994449957711149948991338614458427685685,
  274953597022601226660596075466844088108632317, 2566163035169116885002476922393206325602841380427712149,
  2395319339734094706096584433759985493101798646173714069, 2065323962089620172233003614519405113832150726736922261,
  2450879786028934097774294918120674794616119225288279701, 32079799918106855534040831695570581,
  32079799918107150681951061929936533, 32079799918106560386182312867448469,
  275563383020982310203435613796552880125167253, 28089235829014140231360528219424405,
  241284698510494360430930944185787708755461781, 2072619778255586381686564673622706911080419196489746069,
  2362207558639248443262737844379899316850783277457393301, 20291208421439148651664741154066409931293655182715534847716143845,
  19354363541945200611487999019986961897422246620879106267565573781, 166252716895098721701000315374648103391653311879044487783194668175047308005,
  21952782359395441900472036200993387182400521588706439597540820629, 188572964579618282587990964891589361321351653993672185437463591578421474021,
  1478729823289313346963215728702712340184053065746262391686262645444368800103855605397, 17892049921493998960109750757096481160636468166054616699234207185,
  20512965871679149362158634654791320116240828871264426023989590109, 2388023523576480387019809296921537025344676141767637085,
  2372309457964450418396117776511453995820397648647597057, 276173169022012783493394704595225350162659561,
  2372309457964450418428427655006737116068840853016196429, 2115646386452063853117860201866068395697666145866790221,
  2367071436126244866798239909986178340133780583039939937, 31494145340635835575834653747102057,
  28051206310793532479070294943777129, 3728382125634958466793833,
  4072524583038727690961257, 241284698510494360430930353890018959692973717,
  2072619778255586381686564673622707206228329426724112021, 1500309763378029280873926669027220525100118533883832306565145179172527924109211911829,
  12887562735156268492567826685148256578169912457509055239691089276076135582382200182766275970709, 174659043943745698881559850301968460564980409564618883808905331332010264213,
  2367258508335823222375877169589505487621089339021243046, 2367258508335823222375877169589505487621107206085193293,
  2367258508335823222375877169589505487621107137365717145, 2395553180014622567432347488579110619013357401800754837,
  2395553180014622567432347488579110619013401657143772821, 20577645127983209457810974311905575879775180981694057121256097429,
  176760625706763238116832052839098126408880028027544064554930235389583083157, 20577645127983209457810974311910027234857703475819901419683623653,
  2119574902836091755944090939735516845609663954920982165, 2119574902836091755944090939735516845609619699577964181,
  156397023110700697147944855801972997437641394476779815090369921447020775061, 18207009778206783480470168381223282262837956952104027074953528981,
  2082908749754307670531266375862850394817371810442558069, 17892049921493998960107464059590772454162600227341976164410377877,
  1320200263423339494231117064723052684925840607705970687888450118704774901991938765541, 17892049921493998960107464059590772454162599637046214871411112565,
  274997153160965535108766465339296449812280037, 32013882087191611249924774488491669,
  278002527032236005655223296163162032567273109, 2388023523617619164085710217196149825039788171417662181,
  279831885033586307436719724171564081026742733, 261995644489651023591430177993620227203578317,
  31623445702073982649732391405402573, 2268858526109656908743259032320728068050643219732542181,
  264129895496840694540094005912623588132832917, 264129895496840694540708208703276326437570197,
  241284698510494360430844834784461493813423693, 2372309457971441179372268520470300874800915020750309013,
  2372309457971441179372268520470302129179470182838481637, 20527428311876949873352134595104984632748232971061966650696844949,
  2377547479864701695677847553718264903703828602374112917, 20422977341412224575464199589787101918545072432478402852071458453,
  2377547479864701695677847553718083092594258084041377429, 2152312539528397976137746185556333688611362411275927837,
  250562156961264679893255629636683018511892765, 29169274140296583051474031022752029,
  3387560082112779915412945, 249957815476195859811061845746868330740888293,
  30159309259007905426494472266493517, 275563383020982310203435908944463110359533205,
  2554330717895144761396796351333481858106921665370834581, 21941533793055697414769927216298861140757088836404946205323347605,
  21952782359395441900490961345112062095984552429330687717084808853, 21944747666913379296369473905494597979092361840935534936755056205,
  18525183508730247990016178572992603960925113870165751783233728077, 27909229443299386192389521832717901,
  251019496458248527219283237001224334560243277, 297515679078359223073169418666164949455253069,
  297515679078359223073169418666164949455260097, 4030613580488828499576469,
  34635383528305685522897532067301013, 34635383528305095227128783004812949,
  34635383528305095227132390777338485, 34635383528305095227132390777342177,
  4030023284723687209613941, 4030023284723687209617633,
  34617636420014056219434373590599317, 12887562735156268492567826685148256578170157662407780208530663069604469684368097129096122773069,
  165507328269224372145998630343002574811162429649936298462012347716156304973, 2367258508335823222375877169589505487621180254888966773,
  176760625706763238116832052839059644556570436064249518006551471769335673573, 178247952046146929984478225740361938610408024040542538783803923981418935013,
  156397023110700697147944855801934515585331802513485268541991112609357673189, 164223603469142295945426226802280004586282114600780306095975767813092586213,
  178247952046146929984478225740401944927722340221013528767752145452646052581, 156397023110700697147944855801974521902646118693956258525939334080584790757,
  164223603469142295945426226802320010903596430781251296079923989284319703781, 18165229389175214731047048653445509905561276058277320200734951061,
  18165229389175214731047048653445509905561222415145562993049257621, 246184764593016256411436700249406498823784673,
  2278025064327768863171160954562448742924224886596486805, 2131547524266180520692640534227821541418716175251064469,
  30157407783198689998157962039838357, 30157407783198689998112744624146069,
  259050160321948463624204899795368710189919821, 30535801486863294148298095242299029,
  30535801487177921815159636848854677, 242482492438786159098947195661460571999482597,
  28228677394658578454821297855710869, 3286250563647898199836897,
  28228677394658578454813120237973657, 32008811484440062620965957036721813,
  32008811484441316999521119124894437, 278154973530593415724859503773506603745068693,
  278154973530593415724859503773597760130958997, 2555312847004213135483324807405681642496767139980035733,
  239738455430686441659378072101766104428365461, 278879094404939395309466343440445165703055221,
  246750994449957711149948991338633751420782453, 279374545529264664607124846931408791785228149,
  2361833414259270482713486871992148488788139785244952213, 2225644845683026248675602515476050943577803291826898581,
  2373806035670934998987469174318737608842871928373954197, 297515679078359223076427851539310541835126421,
  297515679078359223076427851539265324419434133, 2555640223377568568906452261729707476528953929748230885,
  260950297058928790148659195355411517555132053, 2241545983499168276962676444602278534431182414499853029,
  28089235829014140231405986153285269, 241284698510494360430844834784461493813424869,
  240353685953933790054820732296641198252148373, 17734971727859899356071860161541244466653653091038460245186758293,
  275955388308083414806447135130828492716951189, 32084870520585982646576590331365013,
  275606939164622580446168076502729867315424845, 17689575727781271152958424995306281620803337930721949443860507789,
  2537307146841900541089646444749749663380105521411442325, 2253144460463495257593218338576286086623554759427147413,
  20749185764066804223702998662821140950633597490448364857657968277, 20749185764066804223702998662821320957019312244487381150179837589,
  2251834955004025537419956511134830596546156176605234837, 32391641965624575599310243857745557,
  32391641966012695094621092823746197, 2085527760681245107562552027306341391001088271180678805,
  249342584926072417218652001189559808999605909, 249342584926072417218019794376665635246622357,
  276347393594882818567300296627924004629431957, 28617212303489589890062074461079189,
  2369690447024212024208507675903072118563239798683780757, 2394571050898133315488007206495234120689862394295404181,
  2367071436099719175703063239875634824312170593566901909]

/-- The codes of the `chainingEntries` pairs. -/
def chainingCodes : List (Nat × Nat) := [
  (28089235829014140231360528219424405, 28089235829014140231405986153285269),
  (241284698510494360430930944185787708755461781, 28089235829014140231405986153285269),
  (2072619778255586381686564673622706911080419196489746069, 28089235829014140231360528219424405),
  (241284698510494360430930353890018959692973717, 28089235829014140231360528219424405),
  (2072619778255586381686564673622707206228329426724112021, 241284698510494360430930944185787708755461781),
  (2395553180014622567432347488579110619013401657143772821, 3788223363410793806743189),
  (2119574902836091755944090939735516845609663954920982165, 3788223363410793806743189),
  (274997153160965535108766465339296449812280037, 32013882087191611249924774488491669),
  (2388023523617619164085710217196149825039788171417662181, 278002527032236005655223296163162032567273109),
  (241284698510494360430844834784461493813423693, 28089235829014140231360528219424405),
  (2152312539528397976137746185556333688611362411275927837, 29169274140296583051474031022752029),
  (250562156961264679893255629636683018511892765, 29169274140296583051474031022752029),
  (34617636420014056219434373590599317, 4030613580488828499576469),
  (2361833414259270482713486871992148488788139785244952213, 3788223363410793806743189),
  (2225644845683026248675602515476050943577803291826898581, 3788223363410793806743189),
  (2373806035670934998987469174318737608842871928373954197, 3788223363410793806743189),
  (2555640223377568568906452261729707476528953929748230885, 297515679078359223076427851539310541835126421)]

/-- The terminal punctuation marks, as in the pattern stage character
class `[!?.]`. -/
def terminalMarks : List Char := ['!', '?', '.']

/-- Claim predicate (spec §8, pattern compression threshold): for every
terminal mark, a run of exactly three is left unchanged by the pattern
stage but collapsed to one mark by the punctuation stage, and a run of
exactly four is rewritten to `<mark>*4` by the pattern stage. -/
def patternPunctuationThreshold : Prop :=
  ∀ c ∈ terminalMarks,
    compressPatterns (List.replicate 3 c) = (List.replicate 3 c, 0) ∧
    compressPunctuation (List.replicate 3 c) = ([c], 1) ∧
    compressPatterns (List.replicate 4 c) = (c :: '*' :: ['4'], 1)

/-- A boundary in the sense of the abbreviation-detector specification:
a space or a punctuation character. -/
def specBoundaryChar (c : Char) : Bool :=
  pyIsSpace c ||
  c ∈ ['!', '?', '.', ',', ':', ';', '(', ')', '[', ']',
       '"', '/', '\\', '~', '-', '_', '*', '&', '%', '$', '#', '@', '+',
       '=', '<', '>', '|', '^']

/-- An occurrence of `a` in `u` delimited on both sides by a boundary:
a space, punctuation, or the start/end of the string. -/
def boundaryOccurs (u a : Text) : Prop :=
  ∃ pre post, u = pre ++ a ++ post ∧
    (pre = [] ∨ ∃ c, pre.getLast? = some c ∧ specBoundaryChar c = true) ∧
    (post = [] ∨ ∃ c, post.head? = some c ∧ specBoundaryChar c = true)

/-- The specified detector: the (case-normalised) text contains some
whitelisted abbreviation as a boundary-delimited token. -/
def specDetects (t : Text) : Prop :=
  ∃ a ∈ GENERAL_PUBLIC_ABBREVIATIONS, boundaryOccurs (pyUpper t) a

/-- Claim predicate (spec §4.4): the detector returns true exactly when
the text contains a whitelisted abbreviation as a boundary-delimited
token. -/
def abbrDetectionExact : Prop :=
  ∀ t : Text, detectAbbreviations t = true ↔ specDetects t


/-!
## Theorems
-/

/-- Empty, blank, or shorter-than-15-character input short-circuits
`compress` to the original text paired with the empty result record. -/
theorem compress_shortcircuit (tc : Text → Nat) (t : Text)
    (h : t = [] ∨ pyStrip t = [] ∨ t.length < 15) :
    compress tc t = (t, emptyResult) := by
  unfold compress
  split
  · rfl
  · next hcond =>
    split
    · rfl
    · next hlen =>
      exfalso
      rcases h with h | h | h
      · exact hcond (by simp [h])
      · exact hcond (by simp [h])
      · exact hlen h

/-- C2, counterexample: for the two-character input "hi" the
`compressed_text` field of the short-circuit result is the empty string,
not the input text, contradicting the claim as stated. -/
theorem minLengthGuard_counterexample :
    (compress (fun t => t.length) "hi".data).2.compressed_text ≠ "hi".data := by
  decide

/-- C2 (amended): for input shorter than 15 characters, `compress`
returns the original text unchanged as the returned text, with zero
tokens saved, but the `compressed_text` field of the info record is the
empty string (it equals the input only when the input is empty). -/
theorem minLengthGuard (tc : Text → Nat) (t : Text) (h : t.length < 15) :
    (compress tc t).1 = t ∧ (compress tc t).2.tokens_saved = 0 ∧
    (compress tc t).2.compressed_text = [] := by
  rw [compress_shortcircuit tc t (Or.inr (Or.inr h))]
  exact ⟨rfl, rfl, rfl⟩

/-- Witness for C2 at the concrete input "hi". -/
theorem minLengthGuard_witness :
    ("hi".data : Text).length < 15 ∧
    ((compress (fun t => t.length) "hi".data).1 = "hi".data ∧
     (compress (fun t => t.length) "hi".data).2.tokens_saved = 0 ∧
     (compress (fun t => t.length) "hi".data).2.compressed_text = []) :=
  ⟨by decide, minLengthGuard (fun t => t.length) "hi".data (by decide)⟩

/-- C3: with input compression enabled, a blank or shorter-than-15
character user message produces an optimized-parameter record whose
`user_message` field is the empty string — it is taken from the
`compressed_text` field of the short-circuit compression info. -/
theorem shortMessageEmptyUserMessage (tc : Text → Nat) (msg : Text)
    (strategy : String) (h : pyStrip msg = [] ∨ msg.length < 15) :
    (getOptimizedParams tc msg strategy true).user_message = [] := by
  have hc : compress tc msg = (msg, emptyResult) :=
    compress_shortcircuit tc msg (Or.inr h)
  simp [getOptimizedParams, hc, emptyResult]

/-- Witness for C3 at the concrete message "hi". -/
theorem shortMessageEmptyUserMessage_witness :
    (pyStrip "hi".data = [] ∨ ("hi".data : Text).length < 15) ∧
    (getOptimizedParams (fun t => t.length) "hi".data "auto" true).user_message
      = [] :=
  ⟨Or.inr (by decide),
   shortMessageEmptyUserMessage (fun t => t.length) "hi".data "auto"
     (Or.inr (by decide))⟩

/-- C6: automatic strategy selection is a function of the input token
count with exactly these thresholds: at most 17 tokens selects starter,
18 to 59 selects pro, 60 or more selects premium. -/
theorem autoStrategyBoundaries (tc : Text → Nat) (msg : Text) :
    (tc msg ≤ 17 → autoSelectStrategy tc msg = "starter") ∧
    (18 ≤ tc msg ∧ tc msg ≤ 59 → autoSelectStrategy tc msg = "pro") ∧
    (60 ≤ tc msg → autoSelectStrategy tc msg = "premium") := by
  unfold autoSelectStrategy selectFromCount
  refine ⟨fun h => ?_, fun h => ?_, fun h => ?_⟩
  · rw [if_pos (by omega)]
  · rw [if_neg (by omega), if_pos (by omega)]
  · rw [if_neg (by omega), if_neg (by omega)]

/-- Witness for C6 at token counts 17, 18, 59 and 60. -/
theorem autoStrategyBoundaries_witness :
    autoSelectStrategy (fun t => t.length) (List.replicate 17 'a') = "starter" ∧
    autoSelectStrategy (fun t => t.length) (List.replicate 18 'a') = "pro" ∧
    autoSelectStrategy (fun t => t.length) (List.replicate 59 'a') = "pro" ∧
    autoSelectStrategy (fun t => t.length) (List.replicate 60 'a') = "premium" :=
  ⟨(autoStrategyBoundaries _ _).1 (by simp),
   (autoStrategyBoundaries _ _).2.1 (by simp),
   (autoStrategyBoundaries _ _).2.1 (by simp),
   (autoStrategyBoundaries _ _).2.2 (by simp)⟩

/-- C10: the number-compression stage rewrites "2024년 1월" to "'24.1"
and "10억원" to "10e". -/
theorem numericCompressionExamples :
    (numberCompress "2024년 1월".data).1 = apos :: "24.1".data ∧
    (numberCompress "10억원".data).1 = "10e".data :=
  ⟨rfl, rfl⟩

/-- C9, counterexample: a run of three periods — a terminal mark — is
collapsed by neither stage: the punctuation stage has no rule for `.`,
so the claimed property fails at the mark `.`. -/
theorem patternPunctuationThreshold_counterexample :
    ¬ patternPunctuationThreshold := by
  intro h
  have h3 := (h '.' (by decide)).2.1
  exact absurd h3 (by decide)

/-- C9 (amended): the three/four-run property holds for the marks `!`
and `?` (the terminal marks the punctuation stage covers); a run of
three periods is left unchanged by both stages, while a run of four
periods is still rewritten to `.*4` by the pattern stage. -/
theorem patternPunctuationThresholdAmended (c : Char) :
    (c ∈ ['!', '?'] →
      compressPatterns (List.replicate 3 c) = (List.replicate 3 c, 0) ∧
      compressPunctuation (List.replicate 3 c) = ([c], 1) ∧
      compressPatterns (List.replicate 4 c) = (c :: '*' :: ['4'], 1)) ∧
    (compressPatterns (List.replicate 3 '.') = (List.replicate 3 '.', 0) ∧
     compressPunctuation (List.replicate 3 '.') = (List.replicate 3 '.', 0) ∧
     compressPatterns (List.replicate 4 '.') = ('.' :: '*' :: ['4'], 1)) := by
  constructor
  · intro hc
    rcases List.mem_cons.mp hc with rfl | hc2
    · exact ⟨by decide, by decide, by decide⟩
    · rcases List.mem_cons.mp hc2 with rfl | hc3
      · exact ⟨by decide, by decide, by decide⟩
      · simp at hc3
  · exact ⟨by decide, by decide, by decide⟩

/-- Witness for C9 (amended) at the mark `!`. -/
theorem patternPunctuationThresholdAmended_witness :
    compressPunctuation (List.replicate 3 '!') = (['!'], 1) :=
  ((patternPunctuationThresholdAmended '!').1 (by decide)).2.1

/-- C7, counterexample: the table maps "알겠습니다" to "알았어요", and
"알았어요" is itself the key of another entry ("알았어요" → "알았어"),
so a single dictionary pass substitutes the output of one replacement
with another replacement. -/
theorem noRunawayChains_counterexample : ¬ noRunawayChains := by
  intro h
  exact h ("알겠습니다".data, "알았어요".data) (by decide)
      ("알았어요".data, "알았어".data) (by decide) (by decide) rfl

/-- The accepted token count of a validated stage never exceeds the
pre-stage token count. -/
theorem validateStage_tok_le (tc : Text → Nat) (prev : StageAcc)
    (res : Text × Nat) : (validateStage tc prev res).tok ≤ prev.tok := by
  unfold validateStage
  split
  · exact Nat.le_refl _
  · next h => exact Nat.le_of_not_lt h

/-- The token count recorded by a validated stage is the token count of
the text it carries forward. -/
theorem validateStage_tok_eq (tc : Text → Nat) (prev : StageAcc)
    (res : Text × Nat) (h : prev.tok = tc prev.text) :
    (validateStage tc prev res).tok = tc (validateStage tc prev res).text := by
  unfold validateStage
  split
  · exact h
  · rfl

theorem stage1Acc_tok (tc : Text → Nat) (t : Text) :
    (stage1Acc tc t).tok = tc (stage1Acc tc t).text :=
  validateStage_tok_eq tc _ _ rfl

theorem stage2Acc_tok (tc : Text → Nat) (t : Text) :
    (stage2Acc tc t).tok = tc (stage2Acc tc t).text :=
  validateStage_tok_eq tc _ _ (stage1Acc_tok tc t)

theorem stage3Acc_tok (tc : Text → Nat) (t : Text) :
    (stage3Acc tc t).tok = tc (stage3Acc tc t).text :=
  validateStage_tok_eq tc _ _ (stage2Acc_tok tc t)

theorem stage4Acc_tok (tc : Text → Nat) (t : Text) :
    (stage4Acc tc t).tok = tc (stage4Acc tc t).text :=
  validateStage_tok_eq tc _ _ (stage3Acc_tok tc t)

/-- The token count after all four validated stages never exceeds the
baseline count. -/
theorem stage4Acc_le (tc : Text → Nat) (t : Text) :
    (stage4Acc tc t).tok ≤ tc t :=
  Nat.le_trans (validateStage_tok_le tc _ _)
    (Nat.le_trans (validateStage_tok_le tc _ _)
      (Nat.le_trans (validateStage_tok_le tc _ _)
        (validateStage_tok_le tc _ _)))

/-- C1: non-regression — for every encoder and every input text, the
token count of the text returned by `compress` is at most the token
count of the input, and the `final_tokens` field never exceeds the
`original_tokens` field; each stage is individually rolled back when it
increases the count, and a final guard returns the original text if
total savings are negative. -/
theorem compressNonRegression (tc : Text → Nat) (t : Text) :
    tc (compress tc t).1 ≤ tc t ∧
    (compress tc t).2.final_tokens ≤ (compress tc t).2.original_tokens := by
  unfold compress
  split
  · exact ⟨Nat.le_refl _, Nat.le_refl _⟩
  · split
    · exact ⟨Nat.le_refl _, Nat.le_refl _⟩
    · split
      · exact ⟨Nat.le_refl _, Nat.le_refl _⟩
      · refine ⟨?_, ?_⟩
        · show tc (compressStages tc t).a4.text ≤ tc t
          have h1 := stage4Acc_tok tc t
          have h2 := stage4Acc_le tc t
          calc tc (compressStages tc t).a4.text
              = (stage4Acc tc t).tok := h1.symm
            _ ≤ tc t := h2
        · show (compressStages tc t).a4.tok ≤ tc t
          exact stage4Acc_le tc t

/-!
### Cache lemmas
-/

/-- `enforceSizeLimit` is a drop of the oldest entries. -/
theorem enforceSizeLimit_eq_drop (m : Nat) (l : List β) :
    (enforceSizeLimit m l).1 = l.drop (l.length - m) := by
  induction l with
  | nil => simp [enforceSizeLimit]
  | cons x xs ih =>
    unfold enforceSizeLimit
    split
    · next h =>
      simp only []
      rw [ih]
      have hidx : (x :: xs).length - m = (xs.length - m) + 1 := by
        simp only [List.length_cons]; omega
      rw [hidx, List.drop_succ_cons]
    · next h =>
      have hidx : xs.length + 1 - m = 0 := by omega
      simp [hidx]

/-- After `enforceSizeLimit` the store is within the size bound. -/
theorem enforceSizeLimit_length_le (m : Nat) (l : List β) :
    (enforceSizeLimit m l).1.length ≤ m := by
  rw [enforceSizeLimit_eq_drop, List.length_drop]
  omega

/-- Auto-cleanup never adds entries. -/
theorem autoCleanup_entries_le (cfg : CacheConfig) (now : Int)
    (st : CacheState α) :
    (autoCleanup cfg now st).entries.length ≤ st.entries.length := by
  unfold autoCleanup
  split
  · exact List.length_filter_le _ _
  · exact Nat.le_refl _

/-- `move_to_end` never grows the store. -/
theorem moveToEnd_length_le (l : List (String × CacheEntry α)) (k : String) :
    (moveToEnd l k).length ≤ l.length := by
  unfold moveToEnd
  split
  · next w hw =>
    rw [List.length_append]
    have hmem := List.mem_of_find?_eq_some hw
    have hlt : (l.filter (fun q => q.1 ≠ k)).length < l.length := by
      refine List.length_filter_lt_length_iff_exists.mpr ⟨w, hmem, ?_⟩
      have hk : w.1 = k := by
        have h2 := List.find?_some (p := fun q : String × CacheEntry α => decide (q.1 = k)) hw
        simpa using h2
      simp [hk]
    simp only [List.length_cons, List.length_nil]
    omega
  · exact Nat.le_refl _

/-- `get` never grows the store. -/
theorem cacheGet_entries_le (cfg : CacheConfig) (now : Int) (key : String)
    (st : CacheState α) :
    (cacheGet cfg now key st).2.entries.length ≤ st.entries.length := by
  unfold cacheGet
  have hchain := autoCleanup_entries_le cfg now st
  split
  · split
    · exact Nat.le_trans (List.length_filter_le _ _) hchain
    · exact Nat.le_trans (moveToEnd_length_le _ _) hchain
  · exact hchain

/-- If all entries are live at `now`, the expiry sweep removes nothing. -/
theorem cleanupExpired_of_live (now : Int) (l : List (String × CacheEntry α))
    (h : ∀ p ∈ l, ¬ now > p.2.expires_at) : cleanupExpired now l = l := by
  unfold cleanupExpired
  refine List.filter_eq_self.mpr ?_
  intro p hp
  simpa using h p hp

/-- If all entries are live at `now`, auto-cleanup leaves the entry list
unchanged. -/
theorem autoCleanup_entries_of_live (cfg : CacheConfig) (now : Int)
    (st : CacheState α) (h : ∀ p ∈ st.entries, ¬ now > p.2.expires_at) :
    (autoCleanup cfg now st).entries = st.entries := by
  unfold autoCleanup
  split
  · exact cleanupExpired_of_live now st.entries h
  · rfl

/-- One `set` with a fresh key, on a live store: the new entry is
appended and the oldest entries beyond the capacity are evicted. -/
theorem cacheSet_fresh (cfg : CacheConfig) (now : Int) (key : String)
    (query : Text) (resp : α) (st : CacheState α)
    (hfresh : ∀ p ∈ st.entries, p.1 ≠ key)
    (hlive : ∀ p ∈ st.entries, ¬ now > p.2.expires_at) :
    (cacheSet cfg now key query resp st).entries =
      (st.entries ++ [(key, newCacheEntry cfg now query resp)]).drop
        ((st.entries.length + 1) - cfg.maxSize) := by
  unfold cacheSet
  have hac := autoCleanup_entries_of_live cfg now st hlive
  simp only [hac]
  have hfind : st.entries.find? (fun p => p.1 = key) = none :=
    List.find?_eq_none.mpr (fun p hp => by simpa using hfresh p hp)
  unfold insertEntry
  rw [hfind]
  simp only [Option.isSome_none, Bool.false_eq_true, if_false]
  rw [enforceSizeLimit_eq_drop]
  simp [List.length_append]

/-- Folding `set` over a list of fresh, distinct keys on a live store
appends the new entries in order and evicts from the least-recently-used
front exactly down to the capacity. -/
theorem lruFold (cfg : CacheConfig) (now : Int) (qf : String → Text)
    (rf : String → α) (httl : 0 ≤ cfg.ttlHours) (ks : List String) :
    ∀ (st : CacheState α), ks.Nodup →
      (∀ k ∈ ks, ∀ p ∈ st.entries, p.1 ≠ k) →
      (∀ p ∈ st.entries, p.2.expires_at = now + cfg.ttlHours) →
      st.entries.length ≤ cfg.maxSize →
      (ks.foldl (fun s k => cacheSet cfg now k (qf k) (rf k) s) st).entries =
        (st.entries ++
          ks.map (fun k => (k, newCacheEntry cfg now (qf k) (rf k)))).drop
          ((st.entries.length + ks.length) - cfg.maxSize) := by
  induction ks with
  | nil =>
    intro st _ _ _ hle
    simp [Nat.sub_eq_zero_of_le hle]
  | cons k ks ih =>
    intro st hnd hfresh hexp hle
    rw [List.foldl_cons]
    have hlive : ∀ p ∈ st.entries, ¬ now > p.2.expires_at := by
      intro p hp
      rw [hexp p hp]
      omega
    have hfreshk : ∀ p ∈ st.entries, p.1 ≠ k :=
      fun p hp => hfresh k (List.mem_cons_self k ks) p hp
    have hstep := cacheSet_fresh cfg now k (qf k) (rf k) st hfreshk hlive
    have hknotin : k ∉ ks := (List.nodup_cons.mp hnd).1
    have hsub : (cacheSet cfg now k (qf k) (rf k) st).entries ⊆
        st.entries ++ [(k, newCacheEntry cfg now (qf k) (rf k))] := by
      rw [hstep]
      exact List.drop_subset _ _
    have hfresh2 : ∀ k2 ∈ ks,
        ∀ p ∈ (cacheSet cfg now k (qf k) (rf k) st).entries, p.1 ≠ k2 := by
      intro k2 hk2 p hp
      rcases List.mem_append.mp (hsub hp) with hp2 | hp2
      · exact hfresh k2 (List.mem_cons_of_mem _ hk2) p hp2
      · have hpk : p = (k, newCacheEntry cfg now (qf k) (rf k)) := by
          simpa using hp2
        rw [hpk]
        intro hcontra
        have hkeq : k = k2 := hcontra
        subst hkeq
        exact hknotin hk2
    have hexp2 : ∀ p ∈ (cacheSet cfg now k (qf k) (rf k) st).entries,
        p.2.expires_at = now + cfg.ttlHours := by
      intro p hp
      rcases List.mem_append.mp (hsub hp) with hp2 | hp2
      · exact hexp p hp2
      · have hpk : p = (k, newCacheEntry cfg now (qf k) (rf k)) := by
          simpa using hp2
        rw [hpk]
        rfl
    have hle2 : (cacheSet cfg now k (qf k) (rf k) st).entries.length ≤
        cfg.maxSize := by
      rw [hstep, List.length_drop]
      simp only [List.length_append, List.length_cons, List.length_nil]
      omega
    have hrec := ih (cacheSet cfg now k (qf k) (rf k) st)
      (List.nodup_cons.mp hnd).2 hfresh2 hexp2 hle2
    rw [hrec, hstep, List.length_drop]
    have hd1 : st.entries.length + 1 - cfg.maxSize ≤
        (st.entries ++ [(k, newCacheEntry cfg now (qf k) (rf k))]).length := by
      simp only [List.length_append, List.length_cons, List.length_nil]
      omega
    rw [← List.drop_append_of_le_length hd1, List.drop_drop]
    rw [List.map_cons, List.append_assoc, List.singleton_append]
    congr 1
    simp only [List.length_append, List.length_cons, List.length_nil,
      List.length_map]
    omega

/-- C4: after every cache operation the number of stored entries never
exceeds the configured maximum (the `set` bound holds unconditionally,
`get` only removes entries); and inserting `max_size + 1` distinct fresh
entries into an empty cache, with no intervening reads, evicts exactly
the first-inserted entry: the remaining keys are all but the first, in
insertion order. -/
theorem cacheSizeBoundAndLru (α : Type) (cfg : CacheConfig) :
    (∀ (st : CacheState α) (op : CacheOp α),
      st.entries.length ≤ cfg.maxSize →
      (applyCacheOp cfg st op).entries.length ≤ cfg.maxSize) ∧
    (∀ (now : Int) (ks : List String) (qf : String → Text) (rf : String → α),
      1 ≤ cfg.maxSize → 0 ≤ cfg.ttlHours → ks.Nodup →
      ks.length = cfg.maxSize + 1 →
      (ks.foldl (fun s k => cacheSet cfg now k (qf k) (rf k) s)
          (initialCacheState α)).entries.map Prod.fst = ks.tail) := by
  constructor
  · intro st op hle
    cases op with
    | get now key => exact Nat.le_trans (cacheGet_entries_le cfg now key st) hle
    | set now key query resp => exact enforceSizeLimit_length_le _ _
  · intro now ks qf rf hm httl hnd hlen
    have h := lruFold cfg now qf rf httl ks (initialCacheState α) hnd
      (by intro k hk p hp; simp [initialCacheState] at hp)
      (by intro p hp; simp [initialCacheState] at hp)
      (by simp [initialCacheState])
    rw [h]
    simp only [initialCacheState, List.nil_append, List.length_nil,
      Nat.zero_add]
    rw [hlen]
    have hone : cfg.maxSize + 1 - cfg.maxSize = 1 := by omega
    rw [hone, List.map_drop, List.map_map]
    have hid : (Prod.fst ∘ fun k => (k, newCacheEntry cfg now (qf k) (rf k)))
        = fun k : String => k := rfl
    rw [hid, List.map_id', List.drop_one]

/-- Witness for C4: a capacity-2 cache, one concrete operation bound and
the three-insertion LRU scenario. -/
theorem cacheSizeBoundAndLru_witness :
    ((applyCacheOp ⟨24, 2, 100⟩ (initialCacheState Nat)
        (CacheOp.set 0 "a" [] 7)).entries.length ≤ 2) ∧
    ((["a", "b", "c"].foldl
        (fun s k => cacheSet ⟨24, 2, 100⟩ 0 k [] 7 s)
        (initialCacheState Nat)).entries.map Prod.fst = ["b", "c"]) :=
  ⟨(cacheSizeBoundAndLru Nat ⟨24, 2, 100⟩).1 (initialCacheState Nat)
      (CacheOp.set 0 "a" [] 7) (by decide),
   (cacheSizeBoundAndLru Nat ⟨24, 2, 100⟩).2 0 ["a", "b", "c"]
      (fun _ => []) (fun _ => 7) (by decide) (by decide) (by decide) (by decide)⟩

/-- In a store with unique keys, filtering commutes with key lookup: the
unique binding for `k` survives exactly when the filter keeps it. -/
theorem find?_filter_unique (l : List (String × CacheEntry α)) (k : String)
    (w : String × CacheEntry α) (q : String × CacheEntry α → Bool)
    (hnd : (l.map Prod.fst).Nodup)
    (hf : l.find? (fun x => x.1 = k) = some w) :
    (l.filter q).find? (fun x => x.1 = k) =
      if q w then some w else none := by
  induction l with
  | nil => simp at hf
  | cons x xs ih =>
    rw [List.map_cons, List.nodup_cons] at hnd
    cases hxb : (decide (x.1 = k)) with
    | true =>
      have hxk : x.1 = k := of_decide_eq_true hxb
      rw [List.find?_cons, hxb] at hf
      have hwx : w = x := by
        injection hf with hf2
        exact hf2.symm
      subst hwx
      rw [List.filter_cons]
      cases hq : q w with
      | true =>
        rw [if_pos rfl, if_pos rfl]
        rw [List.find?_cons, hxb]
      | false =>
        rw [if_neg (by simp), if_neg (by simp)]
        refine List.find?_eq_none.mpr ?_
        intro y hy
        have hyxs : y ∈ xs := List.mem_of_mem_filter hy
        have hyk : y.1 ≠ k := by
          intro hcontra
          have hmem2 : y.1 ∈ List.map Prod.fst xs :=
            List.mem_map_of_mem Prod.fst hyxs
          rw [hcontra, ← hxk] at hmem2
          exact hnd.1 hmem2
        simpa using hyk
    | false =>
      rw [List.find?_cons, hxb] at hf
      have hrec := ih hnd.2 hf
      rw [List.filter_cons]
      cases hq : q x with
      | true =>
        rw [if_pos rfl]
        rw [List.find?_cons, hxb]
        exact hrec
      | false =>
        rw [if_neg (by simp)]
        exact hrec

/-- The auto-cleanup sweep does not touch the statistics counters. -/
theorem autoCleanup_counters (cfg : CacheConfig) (now : Int)
    (st : CacheState α) :
    (autoCleanup cfg now st).misses = st.misses ∧
    (autoCleanup cfg now st).hits = st.hits := by
  unfold autoCleanup
  split
  · exact ⟨rfl, rfl⟩
  · exact ⟨rfl, rfl⟩

/-- The auto-cleanup entry list is the expiry sweep or the original. -/
theorem autoCleanup_entries_cases (cfg : CacheConfig) (now : Int)
    (st : CacheState α) :
    (autoCleanup cfg now st).entries = cleanupExpired now st.entries ∨
    (autoCleanup cfg now st).entries = st.entries := by
  unfold autoCleanup
  split
  · exact Or.inl rfl
  · exact Or.inr rfl

/-- `get` on a key found live after auto-cleanup: hit, promote, count. -/
theorem cacheGet_found_live (cfg : CacheConfig) (now : Int) (key : String)
    (st : CacheState α) (e : CacheEntry α)
    (hfind : (autoCleanup cfg now st).entries.find? (fun p => p.1 = key)
      = some (key, e))
    (hlive : ¬ now > e.expires_at) :
    (cacheGet cfg now key st).1 = some e.response ∧
    (cacheGet cfg now key st).2.hits = (autoCleanup cfg now st).hits + 1 ∧
    (cacheGet cfg now key st).2.entries.getLast? = some (key, e) := by
  have hlook : lookupEntry (autoCleanup cfg now st).entries key = some e := by
    unfold lookupEntry
    rw [hfind]
    rfl
  unfold cacheGet
  rw [hlook]
  dsimp only
  rw [if_neg hlive]
  refine ⟨rfl, rfl, ?_⟩
  show (moveToEnd (autoCleanup cfg now st).entries key).getLast?
      = some (key, e)
  unfold moveToEnd
  rw [hfind]
  exact List.getLast?_concat _

/-- `get` on a key found expired after auto-cleanup: purge and miss. -/
theorem cacheGet_found_expired (cfg : CacheConfig) (now : Int) (key : String)
    (st : CacheState α) (e : CacheEntry α)
    (hfind : (autoCleanup cfg now st).entries.find? (fun p => p.1 = key)
      = some (key, e))
    (hexp : now > e.expires_at) :
    (cacheGet cfg now key st).1 = none ∧
    lookupEntry (cacheGet cfg now key st).2.entries key = none ∧
    (cacheGet cfg now key st).2.misses = (autoCleanup cfg now st).misses + 1 := by
  have hlook : lookupEntry (autoCleanup cfg now st).entries key = some e := by
    unfold lookupEntry
    rw [hfind]
    rfl
  unfold cacheGet
  rw [hlook]
  dsimp only
  rw [if_pos hexp]
  refine ⟨rfl, ?_, rfl⟩
  show lookupEntry ((autoCleanup cfg now st).entries.filter
      (fun q => q.1 ≠ key)) key = none
  unfold lookupEntry
  rw [List.find?_eq_none.mpr ?_]
  · rfl
  · intro y hy
    have hyk : y.1 ≠ key := by
      have := List.of_mem_filter hy
      simpa using this
    simpa using hyk

/-- `get` on a key absent after auto-cleanup: miss. -/
theorem cacheGet_notfound (cfg : CacheConfig) (now : Int) (key : String)
    (st : CacheState α)
    (hfind : (autoCleanup cfg now st).entries.find? (fun p => p.1 = key)
      = none) :
    (cacheGet cfg now key st).1 = none ∧
    lookupEntry (cacheGet cfg now key st).2.entries key = none ∧
    (cacheGet cfg now key st).2.misses = (autoCleanup cfg now st).misses + 1 := by
  have hlook : lookupEntry (autoCleanup cfg now st).entries key = none := by
    unfold lookupEntry
    rw [hfind]
    rfl
  unfold cacheGet
  rw [hlook]
  dsimp only
  refine ⟨rfl, ?_, rfl⟩
  show lookupEntry (autoCleanup cfg now st).entries key = none
  exact hlook

/-- C5: for a stored entry (unique keys, as in a Python dict), `get`
never returns it as a hit once its expiry is in the past — it returns
`none`, the entry is no longer in the store, and the miss counter is
incremented; a non-expired hit returns the stored response, promotes the
entry to most-recently-used (the last position) and increments the hit
counter. -/
theorem cacheExpiryAndHit (α : Type) (cfg : CacheConfig) (st : CacheState α)
    (now : Int) (key : String) (e : CacheEntry α)
    (hnd : (st.entries.map Prod.fst).Nodup)
    (hl : lookupEntry st.entries key = some e) :
    (e.expires_at < now →
      (cacheGet cfg now key st).1 = none ∧
      lookupEntry (cacheGet cfg now key st).2.entries key = none ∧
      (cacheGet cfg now key st).2.misses = st.misses + 1) ∧
    (now ≤ e.expires_at →
      (cacheGet cfg now key st).1 = some e.response ∧
      (cacheGet cfg now key st).2.hits = st.hits + 1 ∧
      (cacheGet cfg now key st).2.entries.getLast? = some (key, e)) := by
  have hw : st.entries.find? (fun p => p.1 = key) = some (key, e) := by
    unfold lookupEntry at hl
    cases hfind : st.entries.find? (fun p => p.1 = key) with
    | none => rw [hfind] at hl; simp at hl
    | some w =>
      rw [hfind] at hl
      simp at hl
      have hk : w.1 = key := by
        have h2 := List.find?_some
          (p := fun p : String × CacheEntry α => decide (p.1 = key)) hfind
        simpa using h2
      obtain ⟨a, b⟩ := w
      have hk2 : a = key := hk
      have hl2 : b = e := hl
      rw [hk2, hl2]
  have hcounters := autoCleanup_counters cfg now st
  constructor
  · intro hexp
    have hexp2 : now > e.expires_at := hexp
    rcases autoCleanup_entries_cases cfg now st with hce | hce
    · -- the periodic sweep already removed the expired entry
      have hfind2 : (autoCleanup cfg now st).entries.find?
          (fun p => p.1 = key) = none := by
        rw [hce]
        unfold cleanupExpired
        rw [find?_filter_unique st.entries key (key, e) _ hnd hw]
        have hcond : (!decide (now > (key, e).2.expires_at)) = false := by
          simp only [decide_eq_true hexp2, Bool.not_true]
        rw [hcond]
        rfl
      have h3 := cacheGet_notfound cfg now key st hfind2
      exact ⟨h3.1, h3.2.1, by rw [h3.2.2, hcounters.1]⟩
    · -- no sweep: `get` purges the expired entry itself
      have hfind2 : (autoCleanup cfg now st).entries.find?
          (fun p => p.1 = key) = some (key, e) := by rw [hce]; exact hw
      have h3 := cacheGet_found_expired cfg now key st e hfind2 hexp2
      exact ⟨h3.1, h3.2.1, by rw [h3.2.2, hcounters.1]⟩
  · intro hlive
    have hlive2 : ¬ now > e.expires_at := by omega
    have hfind2 : (autoCleanup cfg now st).entries.find?
        (fun p => p.1 = key) = some (key, e) := by
      rcases autoCleanup_entries_cases cfg now st with hce | hce
      · rw [hce]
        unfold cleanupExpired
        rw [find?_filter_unique st.entries key (key, e) _ hnd hw]
        have hcond : (!decide (now > (key, e).2.expires_at)) = true := by
          simp only [decide_eq_false hlive2, Bool.not_false]
        rw [hcond]
        rfl
      · rw [hce]; exact hw
    have h3 := cacheGet_found_live cfg now key st e hfind2 hlive2
    exact ⟨h3.1, by rw [h3.2.1, hcounters.2], h3.2.2⟩

/-- Witness for C5: a one-entry cache, read once after expiry and once
before expiry. -/
theorem cacheExpiryAndHit_witness :
    ((0 : Int) < 1 ∧
      (cacheGet ⟨24, 1000, 100⟩ 1 "k"
        ⟨[("k", ⟨7, [], 0, 0, 0⟩)], 0, 0, 0, 0, 0⟩ : Option Nat × _).1 = none) ∧
    ((0 : Int) ≤ 0 ∧
      (cacheGet ⟨24, 1000, 100⟩ 0 "k"
        ⟨[("k", ⟨7, [], 0, 0, 0⟩)], 0, 0, 0, 0, 0⟩ : Option Nat × _).1
        = some 7) :=
  ⟨⟨by decide,
    ((cacheExpiryAndHit Nat ⟨24, 1000, 100⟩
        ⟨[("k", ⟨7, [], 0, 0, 0⟩)], 0, 0, 0, 0, 0⟩ 1 "k" ⟨7, [], 0, 0, 0⟩
        (by decide) (by decide)).1 (by decide)).1⟩,
   ⟨by decide,
    ((cacheExpiryAndHit Nat ⟨24, 1000, 100⟩
        ⟨[("k", ⟨7, [], 0, 0, 0⟩)], 0, 0, 0, 0, 0⟩ 0 "k" ⟨7, [], 0, 0, 0⟩
        (by decide) (by decide)).2 (by decide)).1⟩⟩

/-!
### Abbreviation detector soundness (C8)
-/

/-- A substring found by `containsSub` yields an explicit
decomposition. -/
theorem containsSub_decomp (pat : Text) (t : Text)
    (h : containsSub pat t = true) : ∃ s u, s ++ pat ++ u = t := by
  induction t with
  | nil =>
    unfold containsSub at h
    have hp : pat = [] := by simpa using h
    exact ⟨[], [], by simp [hp]⟩
  | cons c rest ih =>
    unfold containsSub at h
    simp only [Bool.or_eq_true] at h
    rcases h with h1 | h2
    · obtain ⟨u, hu⟩ := List.isPrefixOf_iff_prefix.mp h1
      exact ⟨[], u, by simpa using hu⟩
    · obtain ⟨s, u, hsu⟩ := ih h2
      exact ⟨c :: s, u, by rw [← hsu]; rfl⟩

/-- A pattern `b ++ a ++ c` with boundary characters `b`, `c` found
inside the space-padded text witnesses a boundary-delimited occurrence
of `a` in the unpadded text. -/
theorem boundaryOccurs_of_padded (u a : Text) (b c : Char)
    (hb : specBoundaryChar b = true) (hc : specBoundaryChar c = true)
    (h : ∃ s t2, s ++ (b :: (a ++ [c])) ++ t2 = ' ' :: (u ++ [' '])) :
    boundaryOccurs u a := by
  obtain ⟨s, t2, hst⟩ := h
  rcases s with _ | ⟨s0, s1⟩
  · rw [List.nil_append, List.cons_append] at hst
    injection hst with hb2 hrest
    rcases List.eq_nil_or_concat' t2 with rfl | ⟨t0, d, rfl⟩
    · simp only [List.append_eq, List.append_nil] at hrest
      obtain ⟨ha2, hc2⟩ := List.append_inj' hrest (by simp)
      exact ⟨[], [], by simp [ha2], Or.inl rfl, Or.inl rfl⟩
    · have hre : (a ++ c :: t0) ++ [d] = u ++ [' '] := by
        rw [← hrest]; simp
      obtain ⟨ha2, hd2⟩ := List.append_inj' hre (by simp)
      refine ⟨[], c :: t0, ?_, Or.inl rfl, Or.inr ⟨c, rfl, hc⟩⟩
      rw [← ha2]; simp
  · rw [List.cons_append] at hst
    injection hst with hs0 hrest
    rcases List.eq_nil_or_concat' t2 with rfl | ⟨t0, d, rfl⟩
    · simp only [List.append_eq, List.append_nil] at hrest
      have hre : (s1 ++ b :: a) ++ [c] = u ++ [' '] := by
        rw [← hrest]; simp
      obtain ⟨ha2, hc2⟩ := List.append_inj' hre (by simp)
      refine ⟨s1 ++ [b], [], ?_, Or.inr ⟨b, List.getLast?_concat _, hb⟩,
        Or.inl rfl⟩
      rw [← ha2]; simp
    · have hre : (s1 ++ b :: a ++ c :: t0) ++ [d] = u ++ [' '] := by
        rw [← hrest]; simp
      obtain ⟨ha2, hd2⟩ := List.append_inj' hre (by simp)
      refine ⟨s1 ++ [b], c :: t0, ?_,
        Or.inr ⟨b, List.getLast?_concat _, hb⟩, Or.inr ⟨c, rfl, hc⟩⟩
      rw [← ha2]; simp

/-- `str.strip` decomposition: a text is whitespace, then its strip,
then whitespace. -/
theorem pyStrip_decomp (l : Text) :
    ∃ w1 w2, l = w1 ++ pyStrip l ++ w2 ∧
      (∀ x ∈ w1, pyIsSpace x = true) ∧ (∀ x ∈ w2, pyIsSpace x = true) := by
  refine ⟨l.takeWhile pyIsSpace,
    (((l.dropWhile pyIsSpace).reverse).takeWhile pyIsSpace).reverse,
    ?_, ?_, ?_⟩
  · unfold pyStrip
    conv_lhs => rw [← List.takeWhile_append_dropWhile (p := pyIsSpace) (l := l)]
    rw [List.append_assoc]
    congr 1
    conv_lhs =>
      rw [← (l.dropWhile pyIsSpace).reverse_reverse,
        ← List.takeWhile_append_dropWhile (p := pyIsSpace)
          (l := (l.dropWhile pyIsSpace).reverse)]
    rw [List.reverse_append]
  · intro x hx
    exact List.mem_takeWhile_imp hx
  · intro x hx
    rw [List.mem_reverse] at hx
    exact List.mem_takeWhile_imp hx

/-- Stripping the space-padded text is stripping the text. -/
theorem pyStrip_pad (l : Text) :
    pyStrip (' ' :: (l ++ [' '])) = pyStrip l := by
  unfold pyStrip
  have h1 : (' ' :: (l ++ [' '])).dropWhile pyIsSpace
      = (l ++ [' ']).dropWhile pyIsSpace := by
    rw [List.dropWhile_cons]
    simp [pyIsSpace]
  rw [h1, List.dropWhile_append]
  split
  · next hcase =>
    rw [List.isEmpty_iff] at hcase
    rw [hcase]
    simp [List.dropWhile, pyIsSpace]
  · next hcase =>
    rw [List.reverse_append]
    simp only [List.reverse_cons, List.reverse_nil, List.nil_append,
      List.singleton_append]
    rw [List.dropWhile_cons]
    simp [pyIsSpace]

/-- C8 (amended): the detector is sound for the specified contract —
whenever it returns true, the (case-normalised) text really contains a
whitelisted abbreviation as a boundary-delimited token; in particular it
never returns true for an abbreviation occurring only as a substring of
a longer token.  (The converse direction of the claim fails: see the
counterexample.) -/
theorem abbrDetectionSoundness (t : Text)
    (h : detectAbbreviations t = true) : specDetects t := by
  unfold detectAbbreviations at h
  rw [List.any_eq_true] at h
  obtain ⟨a, ha, hcond⟩ := h
  refine ⟨a, ha, ?_⟩
  simp only [Bool.or_eq_true] at hcond
  rcases hcond with (hpat | hpre) | hsuf
  · rw [List.any_eq_true] at hpat
    obtain ⟨p, hp, hinf⟩ := hpat
    have hdec := containsSub_decomp p _ hinf
    unfold abbrPatterns at hp
    simp only [List.mem_cons, List.not_mem_nil, or_false] at hp
    rcases hp with rfl | rfl | rfl | rfl | rfl | rfl | rfl
    · exact boundaryOccurs_of_padded _ a ' ' ' ' (by decide) (by decide) hdec
    · exact boundaryOccurs_of_padded _ a ' ' '?' (by decide) (by decide) hdec
    · exact boundaryOccurs_of_padded _ a ' ' '.' (by decide) (by decide) hdec
    · exact boundaryOccurs_of_padded _ a ' ' ',' (by decide) (by decide) hdec
    · exact boundaryOccurs_of_padded _ a ' ' ':' (by decide) (by decide) hdec
    · exact boundaryOccurs_of_padded _ a ' ' ')' (by decide) (by decide) hdec
    · exact boundaryOccurs_of_padded _ a '(' ' ' (by decide) (by decide) hdec
  · rw [pyStrip_pad, List.isPrefixOf_iff_prefix] at hpre
    obtain ⟨rest, hrest⟩ := hpre
    obtain ⟨w1, w2, hdecomp, hw1, _⟩ := pyStrip_decomp (pyUpper t)
    refine ⟨w1, ' ' :: (rest ++ w2), ?_, ?_, Or.inr ⟨' ', rfl, by decide⟩⟩
    · rw [hdecomp, ← hrest]
      simp
    · rcases List.eq_nil_or_concat' w1 with rfl | ⟨w0, x, rfl⟩
      · exact Or.inl rfl
      · refine Or.inr ⟨x, List.getLast?_concat _, ?_⟩
        have hx : pyIsSpace x = true := hw1 x (by simp)
        simp [specBoundaryChar, hx]
  · rw [pyStrip_pad, List.isSuffixOf_iff_suffix] at hsuf
    obtain ⟨rest, hrest⟩ := hsuf
    obtain ⟨w1, w2, hdecomp, _, hw2⟩ := pyStrip_decomp (pyUpper t)
    refine ⟨w1 ++ rest ++ [' '], w2, ?_,
      Or.inr ⟨' ', List.getLast?_concat _, by decide⟩, ?_⟩
    · rw [hdecomp, ← hrest]
      simp
    · rcases w2 with _ | ⟨x, w2b⟩
      · exact Or.inl rfl
      · refine Or.inr ⟨x, rfl, ?_⟩
        have hx : pyIsSpace x = true := hw2 x (by simp)
        simp [specBoundaryChar, hx]

/-- Witness for C8 (amended) at a concrete detected input. -/
theorem abbrDetectionSoundness_witness :
    detectAbbreviations "AI ok".data = true ∧ specDetects "AI ok".data :=
  ⟨by decide, abbrDetectionSoundness "AI ok".data (by decide)⟩

/-- C8, counterexample: the text "AI!" contains the whitelisted
abbreviation "AI" delimited by the string start and the punctuation
mark `!`, yet the detector returns false — `!` is not among the seven
boundary patterns it checks — so the claimed exact characterisation
fails. -/
theorem abbrDetectionExact_counterexample : ¬ abbrDetectionExact := by
  intro h
  have hspec : specDetects "AI!".data := by
    refine ⟨"AI".data, by decide, [], ['!'], by decide, Or.inl rfl,
      Or.inr ⟨'!', rfl, by decide⟩⟩
  have h2 := (h "AI!".data).mpr hspec
  exact absurd h2 (by decide)

/-!
### Chain-freeness of the learning dictionary (C7)

The quadratic key/replacement comparison over the 401-entry table is
delegated to the numeric codes: the certificates `chainCodeCert` and
`selfKeyCert` are decided over bignum literals, and `encodeText_injective`
transfers them back to the string table.
-/

/-- Every character code is below the digit base of `encodeText`. -/
theorem encodeChar_lt (c : Char) : c.toNat + 1 < 8589934592 := by
  have h := UInt32.toNat_lt_size c.val
  have h2 : c.toNat = c.val.toNat := rfl
  rw [h2]
  exact Nat.lt_of_lt_of_le (Nat.succ_lt_succ h) (by norm_num [UInt32.size])

/-- `encodeText` of a text extended by one character. -/
theorem encodeText_append_char (t : Text) (c : Char) :
    encodeText (t ++ [c]) = encodeText t * 8589934592 + (c.toNat + 1) := by
  unfold encodeText
  rw [List.foldl_append]
  rfl

/-- `encodeText` is injective: texts are base-2^33 numerals with nonzero
digits. -/
theorem encodeText_injective : ∀ s t : Text,
    encodeText s = encodeText t → s = t := by
  intro s
  induction s using List.reverseRecOn with
  | nil =>
    intro t ht
    induction t using List.reverseRecOn with
    | nil => rfl
    | append_singleton t0 c _ =>
      rw [encodeText_append_char] at ht
      have h0 : encodeText ([] : Text) = 0 := rfl
      rw [h0] at ht
      omega
  | append_singleton s0 b ihs =>
    intro t ht
    induction t using List.reverseRecOn with
    | nil =>
      rw [encodeText_append_char] at ht
      have h0 : encodeText ([] : Text) = 0 := rfl
      rw [h0] at ht
      omega
    | append_singleton t0 c _ =>
      rw [encodeText_append_char, encodeText_append_char] at ht
      have hb := encodeChar_lt b
      have hc := encodeChar_lt c
      have hmain : encodeText s0 = encodeText t0 ∧ b.toNat = c.toNat := by
        constructor
        · omega
        · omega
      have hbc : b = c := by
        have hval : b.val.toNat = c.val.toNat := hmain.2
        exact Char.ext (UInt32.toNat.inj hval)
      rw [ihs t0 hmain.1, hbc]

set_option maxRecDepth 100000
set_option maxHeartbeats 2000000

/-- The code table is the coded string table. -/
theorem dictCodes_eq :
    learning_dict.map (fun p => (encodeText p.1, encodeText p.2))
      = dictCodes := by
  decide

/-- The key-code list is the first projection of the code table. -/
theorem keyCodes_eq : dictCodes.map Prod.fst = keyCodes := by
  decide

/-- The exception-code table is the coded exception list. -/
theorem chainingCodes_eq :
    chainingEntries.map (fun p => (encodeText p.1, encodeText p.2))
      = chainingCodes := by
  decide

/-- Certificate: every coded entry is an exception, a self-mapping, or
has a replacement code that is not a key code. -/
theorem chainCodeCert : ∀ cp ∈ dictCodes,
    cp ∈ chainingCodes ∨ cp.2 = cp.1 ∨ cp.2 ∉ keyCodes := by
  decide

/-- Certificate: a self-mapped key code occurs only once in the code
table. -/
theorem selfKeyCert : ∀ cp ∈ dictCodes, cp.2 = cp.1 →
    ∀ dq ∈ dictCodes, dq.1 = cp.1 → dq = cp := by
  decide

/-- C7 (amended): apart from the seventeen entries listed in
`chainingEntries`, no entry's replacement text is the matching key of
another entry of the table. -/
theorem noRunawayChainsAmended :
    ∀ p ∈ learning_dict, p ∉ chainingEntries →
      ∀ q ∈ learning_dict, q ≠ p → q.1 ≠ p.2 := by
  intro p hp hexc q hq hne heq
  have hdp : (encodeText p.1, encodeText p.2) ∈ dictCodes := by
    rw [← dictCodes_eq]
    exact List.mem_map_of_mem _ hp
  have hdq : (encodeText q.1, encodeText q.2) ∈ dictCodes := by
    rw [← dictCodes_eq]
    exact List.mem_map_of_mem _ hq
  have hkq : encodeText q.1 ∈ keyCodes := by
    rw [← keyCodes_eq]
    exact List.mem_map_of_mem Prod.fst hdq
  rcases chainCodeCert _ hdp with hin | hself | hnotin
  · rw [← chainingCodes_eq] at hin
    obtain ⟨x, hx, hcode⟩ := List.mem_map.mp hin
    have hx1 : x.1 = p.1 := encodeText_injective _ _ (congrArg Prod.fst hcode)
    have hx2 : x.2 = p.2 := encodeText_injective _ _ (congrArg Prod.snd hcode)
    have hxp : x = p := Prod.ext hx1 hx2
    rw [hxp] at hx
    exact hexc hx
  · have hq1 : encodeText q.1 = encodeText p.1 := by
      rw [heq]
      exact hself
    have hqeq := selfKeyCert _ hdp hself (encodeText q.1, encodeText q.2)
      hdq hq1
    have hqp1 : q.1 = p.1 := encodeText_injective _ _
      (congrArg Prod.fst hqeq)
    have hqp2 : q.2 = p.2 := encodeText_injective _ _
      (congrArg Prod.snd hqeq)
    exact hne (Prod.ext hqp1 hqp2)
  · apply hnotin
    rw [← heq]
    exact hkq

/-- Witness for C7 (amended) at two concrete table entries. -/
theorem noRunawayChainsAmended_witness :
    ("안녕하세요".data, "안녕".data) ∈ learning_dict ∧
    ("그러나".data : Text) ≠ "안녕".data :=
  ⟨by decide,
   noRunawayChainsAmended ("안녕하세요".data, "안녕".data) (by decide)
     (by decide) ("그러나".data, "근데".data) (by decide) (by decide)⟩

end Woosai
